import Mathlib

/-!
Verification of the FacturaPro document-processing core.

This file gives a shallow embedding of the invoice-processing pipeline of
`traitementFinal.py` and of the amount normalizer of `amount_extractor.py`,
and proves or refutes the frozen claims about it.

Modelling choices, stated once:
* Python strings are Lean `String` / `List Char`; machine floats are `Rat`
  (every numeric literal the claims touch has an exact short decimal form and
  the code performs no float arithmetic beyond parsing and 2-digit rounding).
* The regular-expression cascades of `_extract_invoice_details` are embedded
  via an explicit pattern AST (`RE`) and a backtracking matcher (`mtch`) that
  follows CPython `re` semantics for the constructs those patterns use:
  leftmost search, ordered alternation, greedy and lazy repetition,
  character classes, lookahead, capture groups, the IGNORECASE and DOTALL
  flags, and the end anchor.  The matcher takes explicit fuel bounding the
  backtracking depth; fuel is universally quantified in every lemma that
  needs to hold for all inputs.
* SQLite is modelled as in-memory lists of rows; an INSERT into a table with
  a TEXT PRIMARY KEY fails exactly on a duplicate key, as in the schema of
  `DatabaseManager.init_db`.  `uuid.uuid4` and `datetime.now` are external
  collaborators and are modelled as explicit parameters (a freshness counter
  resp. an arbitrary timestamp string).
* `\s`, `\d`, `\w` and `str.strip` are taken over the ASCII range, which is
  the range every claim exercises.
-/

/-! ## Character utilities (ASCII range of the Python predicates) -/

def isPySpace (c : Char) : Bool :=
  c == ' ' || c == '\t' || c == '\n' || c == '\r' || c == '\x0b' || c == '\x0c'

def isPyDigit (c : Char) : Bool :=
  '0' ≤ c && c ≤ '9'

def isPyWord (c : Char) : Bool :=
  ('a' ≤ c && c ≤ 'z') || ('A' ≤ c && c ≤ 'Z') || isPyDigit c || c == '_'

/-- ASCII lower-casing, as CPython applies it under `re.IGNORECASE`. -/
def lowerAscii (c : Char) : Char :=
  if 'A' ≤ c && c ≤ 'Z' then Char.ofNat (c.toNat + 32) else c

/-! ## Text normalization

`_extract_invoice_details` line 281 runs
a re.sub call collapsing every maximal whitespace run to a single space
after str.strip removed the surrounding whitespace. -/

def collapseWs : Bool → List Char → List Char
  | _, [] => []
  | prevSpace, c :: rest =>
    if isPySpace c then
      if prevSpace then collapseWs true rest
      else ' ' :: collapseWs true rest
    else c :: collapseWs false rest

def pyStripList (cs : List Char) : List Char :=
  ((cs.dropWhile isPySpace).reverse.dropWhile isPySpace).reverse

def normalizeText (s : String) : String :=
  String.mk (collapseWs false (pyStripList s.data))

/-! ## Regular-expression pattern AST and matcher -/

/-- One item of a character class. -/
inductive ClsItem where
  | ch (c : Char)
  | rng (lo hi : Char)
  | digit
  | space
  | word
deriving DecidableEq

inductive RE where
  | eps
  | lit (c : Char)
  | cls (neg : Bool) (items : List ClsItem)
  | dot
  | seq (a b : RE)
  | alt (a b : RE)
  | rep (lo : Nat) (hi : Option Nat) (greedy : Bool) (a : RE)
  | grp (i : Nat) (a : RE)
  | look (a : RE)
  | eos
deriving DecidableEq

structure ReFlags where
  icase : Bool
  dotall : Bool
deriving DecidableEq

def flagsNone : ReFlags := ⟨false, false⟩
def flagsI : ReFlags := ⟨true, false⟩
def flagsIDotall : ReFlags := ⟨true, true⟩

/-- Class-item membership.  Under IGNORECASE CPython lowers both the input
character and the literal endpoints of the class at compile time. -/
def clsItemMatch (fl : ReFlags) (it : ClsItem) (c : Char) : Bool :=
  let c := if fl.icase then lowerAscii c else c
  match it with
  | .ch x => (if fl.icase then lowerAscii x else x) == c
  | .rng lo hi =>
      (if fl.icase then lowerAscii lo else lo) ≤ c &&
      c ≤ (if fl.icase then lowerAscii hi else hi)
  | .digit => isPyDigit c
  | .space => isPySpace c
  | .word => isPyWord c

def clsMatch (fl : ReFlags) (neg : Bool) (items : List ClsItem) (c : Char) : Bool :=
  let hit := items.any (fun it => clsItemMatch fl it c)
  if neg then !hit else hit

def litMatch (fl : ReFlags) (p c : Char) : Bool :=
  if fl.icase then lowerAscii p == lowerAscii c else p == c

/-- Captured groups, most recent first. -/
abbrev GroupList := List (Nat × String)

def decOpt : Option Nat → Option Nat
  | none => none
  | some n => some (n - 1)

def sliceStr (inp : List Char) (a b : Nat) : String :=
  String.mk ((inp.drop a).take (b - a))

/-- Backtracking matcher in continuation style.  `inp` is the whole subject
(for group slicing), `pos`/`rest` the current offset and remaining input.
The continuation is invoked in priority order exactly as CPython backtracks,
so the first `some` is the leftmost-preferred match.  Fuel bounds recursion
depth; all universal lemmas below hold for every fuel value. -/
def mtch (fl : ReFlags) (inp : List Char) :
    Nat → RE → Nat → List Char → GroupList →
    (Nat → List Char → GroupList → Option (Nat × GroupList)) →
    Option (Nat × GroupList)
  | 0, _, _, _, _, _ => none
  | fuel + 1, re, pos, rest, gs, k =>
    match re with
    | .eps => k pos rest gs
    | .lit c =>
      match rest with
      | [] => none
      | x :: rs => if litMatch fl c x then k (pos + 1) rs gs else none
    | .cls neg items =>
      match rest with
      | [] => none
      | x :: rs => if clsMatch fl neg items x then k (pos + 1) rs gs else none
    | .dot =>
      match rest with
      | [] => none
      | x :: rs => if fl.dotall || x != '\n' then k (pos + 1) rs gs else none
    | .seq a b =>
      mtch fl inp fuel a pos rest gs (fun p r g => mtch fl inp fuel b p r g k)
    | .alt a b =>
      match mtch fl inp fuel a pos rest gs k with
      | some res => some res
      | none => mtch fl inp fuel b pos rest gs k
    | .rep lo hi greedy a =>
      match lo with
      | l + 1 =>
        mtch fl inp fuel a pos rest gs
          (fun p r g => mtch fl inp fuel (.rep l (decOpt hi) greedy a) p r g k)
      | 0 =>
        match hi with
        | some 0 => k pos rest gs
        | _ =>
          if greedy then
            match mtch fl inp fuel a pos rest gs
                (fun p r g => mtch fl inp fuel (.rep 0 (decOpt hi) greedy a) p r g k) with
            | some res => some res
            | none => k pos rest gs
          else
            match k pos rest gs with
            | some res => some res
            | none =>
              mtch fl inp fuel a pos rest gs
                (fun p r g => mtch fl inp fuel (.rep 0 (decOpt hi) greedy a) p r g k)
    | .grp i a =>
      mtch fl inp fuel a pos rest gs
        (fun p r g => k p r ((i, sliceStr inp pos p) :: g))
    | .look a =>
      match mtch fl inp fuel a pos rest gs (fun p _ g => some (p, g)) with
      | some _ => k pos rest gs
      | none => none
    | .eos =>
      if rest == ([] : List Char) || rest == ['\n'] then k pos rest gs else none

structure SearchRes where
  startPos : Nat
  endPos : Nat
  groups : GroupList
deriving DecidableEq

/-- Default fuel: generous bound on the backtracking depth reachable on a
subject of the given length with the patterns of this file. -/
def bigFuel (inp : List Char) : Nat := 16 * inp.length + 400

/-- `re.search` scanning: try a match at each start offset, left to right. -/
def searchFrom (fl : ReFlags) (re : RE) (inp : List Char) (fuel : Nat) :
    Nat → List Char → Option SearchRes
  | pos, rest =>
    match mtch fl inp fuel re pos rest [] (fun p _ g => some (p, g)) with
    | some (e, g) => some ⟨pos, e, g⟩
    | none =>
      match rest with
      | [] => none
      | _ :: rs => searchFrom fl re inp fuel (pos + 1) rs

def reSearch (fl : ReFlags) (re : RE) (inp : List Char) : Option SearchRes :=
  searchFrom fl re inp (bigFuel inp) 0 inp

/-- `match.group(i)`: the most recent capture of group `i`, if any. -/
def groupGet (gs : GroupList) (i : Nat) : Option String :=
  match gs.find? (fun p => p.1 == i) with
  | some p => some p.2
  | none => none

/-- Number of capture groups a pattern declares (`len(match.groups())`). -/
def reNumGroups : RE → Nat
  | .eps | .lit _ | .cls _ _ | .dot | .eos => 0
  | .seq a b | .alt a b => max (reNumGroups a) (reNumGroups b)
  | .rep _ _ _ a | .look a => reNumGroups a
  | .grp i a => max i (reNumGroups a)

/-- `re.finditer`: non-overlapping matches, scanning left to right. -/
def findIterAux (fl : ReFlags) (re : RE) (inp : List Char) (fuel : Nat) :
    Nat → Nat → List Char → List SearchRes
  | 0, _, _ => []
  | n + 1, pos, rest =>
    match searchFrom fl re inp fuel pos rest with
    | none => []
    | some m =>
      let newPos := if m.endPos > m.startPos then m.endPos else m.endPos + 1
      m :: findIterAux fl re inp fuel n newPos (inp.drop newPos)

def reFindIter (fl : ReFlags) (re : RE) (inp : List Char) : List SearchRes :=
  findIterAux fl re inp (bigFuel inp) (inp.length + 1) 0 inp

/-! ### Pattern combinators (plain constructors, to keep transcriptions
readable; each pattern definition below carries the original regex). -/

def rstr (s : String) : RE :=
  s.data.foldr (fun c acc => RE.seq (RE.lit c) acc) RE.eps

def rcat (l : List RE) : RE := l.foldr RE.seq RE.eps

def ralts (l : List RE) : RE :=
  match l with
  | [] => RE.eps
  | [r] => r
  | r :: rs => RE.alt r (ralts rs)

def rstar (g : Bool) (r : RE) : RE := RE.rep 0 none g r
def rplus (g : Bool) (r : RE) : RE := RE.rep 1 none g r
def ropt (g : Bool) (r : RE) : RE := RE.rep 0 (some 1) g r
def rexact (n : Nat) (r : RE) : RE := RE.rep n (some n) true r
def ratleast (n : Nat) (r : RE) : RE := RE.rep n none true r
def rbetween (lo hi : Nat) (r : RE) : RE := RE.rep lo (some hi) true r

def rS : RE := RE.cls false [ClsItem.space]
def rD : RE := RE.cls false [ClsItem.digit]
def rW : RE := RE.cls false [ClsItem.word]

/-! ## Python float parsing and rounding (over `Rat`)

`float(s)` on the strings this code ever hands it (built from digits, dots,
commas and minus signs): an optional sign, then either digits optionally
followed by a dot and more digits, or a dot followed by digits. -/

def digitsVal (cs : List Char) : Nat :=
  cs.foldl (fun acc c => 10 * acc + (c.toNat - '0'.toNat)) 0

def pow10 (n : Nat) : Nat := 10 ^ n

def pyFloat (s : String) : Option Rat :=
  let cs := s.data
  let (negSign, cs) :=
    match cs with
    | '-' :: t => (true, t)
    | '+' :: t => (false, t)
    | _ => (false, cs)
  let intDigits := cs.takeWhile isPyDigit
  let rest := cs.dropWhile isPyDigit
  let core : Option Rat :=
    match rest with
    | [] => if intDigits.isEmpty then none else some (mkRat (digitsVal intDigits) 1)
    | '.' :: frac =>
      let fracDigits := frac.takeWhile isPyDigit
      let rest2 := frac.dropWhile isPyDigit
      if !rest2.isEmpty then none
      else if intDigits.isEmpty && fracDigits.isEmpty then none
      else some (mkRat (digitsVal intDigits * pow10 fracDigits.length +
                        digitsVal fracDigits) (pow10 fracDigits.length))
    | _ => none
  core.map (fun v => if negSign then -v else v)

/-- Round `n / d` (with `d > 0`) half-to-even to an integer (the tie rule of
Python `round`). -/
def roundHalfEvenInt (n d : Int) : Int :=
  let f := Int.fdiv n d
  let r := n - f * d
  if 2 * r < d then f
  else if 2 * r > d then f + 1
  else if f % 2 = 0 then f else f + 1

/-- Python `round(x, 2)`: round half-to-even at two decimal digits
(`x * 100` of `num/den` is `num * 100 / den`). -/
def pyRound2 (q : Rat) : Rat := mkRat (roundHalfEvenInt (q.num * 100) (q.den : Int)) 100

/-! ## `FinalAmountExtractor.clean_amount` (amount_extractor.py, lines 52-74) -/

/-- Step 1 of `clean_amount`: the re.sub call that deletes every character
outside the class [^\d,.-], keeping exactly digits, commas, dots and minus
signs. -/
def cleanAmountStrip (s : String) : List Char :=
  s.data.filter (fun c => isPyDigit c || c == ',' || c == '.' || c == '-')

/-- `str.rindex(c)` on a list known to contain `c` (0 when absent, which the
caller rules out). -/
def lastIndexOf (c : Char) (cs : List Char) : Nat :=
  (cs.length - 1) - (cs.reverse.findIdx (fun x => x == c))

def clean_amount (s : String) : Option Rat :=
  let cs := cleanAmountStrip s
  let cs :=
    if cs.contains ',' && cs.contains '.' then
      if lastIndexOf '.' cs > lastIndexOf ',' cs then
        cs.filter (fun c => c != ',')
      else
        ((cs.filter (fun c => c != '.')).map (fun c => if c == ',' then '.' else c))
    else if cs.contains ',' then
      cs.map (fun c => if c == ',' then '.' else c)
    else cs
  match pyFloat (String.mk cs) with
  | none => none
  | some amount => if amount > 0 then some (pyRound2 amount) else none

/-! ## MD5 (`hashlib.md5(...).hexdigest()`)

Full MD5 over the UTF-8 bytes of the input, 32-bit words as `Nat % 2^32`. -/

def utf8Bytes (s : String) : List Nat :=
  s.data.flatMap (fun c =>
    let n := c.toNat
    if n < 0x80 then [n]
    else if n < 0x800 then [0xC0 + n / 64, 0x80 + n % 64]
    else if n < 0x10000 then [0xE0 + n / 4096, 0x80 + (n / 64) % 64, 0x80 + n % 64]
    else [0xF0 + n / 262144, 0x80 + (n / 4096) % 64, 0x80 + (n / 64) % 64, 0x80 + n % 64])

def md5K : List Nat :=
  [0xd76aa478, 0xe8c7b756, 0x242070db, 0xc1bdceee,
   0xf57c0faf, 0x4787c62a, 0xa8304613, 0xfd469501,
   0x698098d8, 0x8b44f7af, 0xffff5bb1, 0x895cd7be,
   0x6b901122, 0xfd987193, 0xa679438e, 0x49b40821,
   0xf61e2562, 0xc040b340, 0x265e5a51, 0xe9b6c7aa,
   0xd62f105d, 0x02441453, 0xd8a1e681, 0xe7d3fbc8,
   0x21e1cde6, 0xc33707d6, 0xf4d50d87, 0x455a14ed,
   0xa9e3e905, 0xfcefa3f8, 0x676f02d9, 0x8d2a4c8a,
   0xfffa3942, 0x8771f681, 0x6d9d6122, 0xfde5380c,
   0xa4beea44, 0x4bdecfa9, 0xf6bb4b60, 0xbebfbc70,
   0x289b7ec6, 0xeaa127fa, 0xd4ef3085, 0x04881d05,
   0xd9d4d039, 0xe6db99e5, 0x1fa27cf8, 0xc4ac5665,
   0xf4292244, 0x432aff97, 0xab9423a7, 0xfc93a039,
   0x655b59c3, 0x8f0ccc92, 0xffeff47d, 0x85845dd1,
   0x6fa87e4f, 0xfe2ce6e0, 0xa3014314, 0x4e0811a1,
   0xf7537e82, 0xbd3af235, 0x2ad7d2bb, 0xeb86d391]

def md5S : List Nat :=
  [7, 12, 17, 22, 7, 12, 17, 22, 7, 12, 17, 22, 7, 12, 17, 22,
   5, 9, 14, 20, 5, 9, 14, 20, 5, 9, 14, 20, 5, 9, 14, 20,
   4, 11, 16, 23, 4, 11, 16, 23, 4, 11, 16, 23, 4, 11, 16, 23,
   6, 10, 15, 21, 6, 10, 15, 21, 6, 10, 15, 21, 6, 10, 15, 21]

def m32 : Nat := 4294967296

def not32 (x : Nat) : Nat := Nat.xor x (m32 - 1)

def rotl32 (x n : Nat) : Nat :=
  ((x <<< n) % m32) ||| (x >>> (32 - n))

/-- Bytes of the padded message: data, 0x80, zeros, 8-byte LE bit length. -/
def md5Pad (msg : List Nat) : List Nat :=
  let len := msg.length
  let padLen := (56 + 64 - (len + 1) % 64) % 64
  let bitLen := (8 * len) % (2 ^ 64)
  msg ++ [0x80] ++ List.replicate padLen 0 ++
    (List.range 8).map (fun i => (bitLen >>> (8 * i)) % 256)

/-- Little-endian 32-bit words of a 64-byte chunk. -/
def md5Words (chunk : List Nat) : List Nat :=
  (List.range 16).map (fun g =>
    (chunk.getD (4 * g) 0) + (chunk.getD (4 * g + 1) 0) * 256 +
    (chunk.getD (4 * g + 2) 0) * 65536 + (chunk.getD (4 * g + 3) 0) * 16777216)

def md5Round (m : List Nat) (st : Nat × Nat × Nat × Nat) (i : Nat) :
    Nat × Nat × Nat × Nat :=
  let (a, b, c, d) := st
  let (f, g) :=
    if i < 16 then ((b &&& c) ||| (not32 b &&& d), i)
    else if i < 32 then ((d &&& b) ||| (not32 d &&& c), (5 * i + 1) % 16)
    else if i < 48 then (Nat.xor b (Nat.xor c d), (3 * i + 5) % 16)
    else (Nat.xor c (b ||| not32 d), (7 * i) % 16)
  let f := (f + a + md5K.getD i 0 + m.getD g 0) % m32
  (d, (b + rotl32 f (md5S.getD i 0)) % m32, b, c)

def md5Chunk (st : Nat × Nat × Nat × Nat) (chunk : List Nat) :
    Nat × Nat × Nat × Nat :=
  let m := md5Words chunk
  let (a, b, c, d) := (List.range 64).foldl (md5Round m) st
  let (a0, b0, c0, d0) := st
  ((a0 + a) % m32, (b0 + b) % m32, (c0 + c) % m32, (d0 + d) % m32)

def chunksOf64Aux : Nat → List Nat → List (List Nat)
  | 0, _ => []
  | _ + 1, [] => []
  | n + 1, x :: t => ((x :: t).take 64) :: chunksOf64Aux n (t.drop 63)

def chunksOf64 (l : List Nat) : List (List Nat) := chunksOf64Aux l.length l

def hexDigit (n : Nat) : Char :=
  if n < 10 then Char.ofNat ('0'.toNat + n) else Char.ofNat ('a'.toNat + n - 10)

def byteHex (b : Nat) : List Char := [hexDigit (b / 16), hexDigit (b % 16)]

def word32LEHex (w : Nat) : List Char :=
  byteHex (w % 256) ++ byteHex ((w >>> 8) % 256) ++
  byteHex ((w >>> 16) % 256) ++ byteHex ((w >>> 24) % 256)

/-- `hashlib.md5(s.encode()).hexdigest()`. -/
def md5Hex (s : String) : String :=
  let (a, b, c, d) :=
    (chunksOf64 (md5Pad (utf8Bytes s))).foldl md5Chunk
      (0x67452301, 0xefcdab89, 0x98badcfe, 0x10325476)
  String.mk (word32LEHex a ++ word32LEHex b ++ word32LEHex c ++ word32LEHex d)

/-! ## Pattern transcriptions (`_extract_invoice_details`, lines 279-532)

Each definition carries the Python regex it transcribes.  `\s`, `\d`, `\w`
become `rS`, `rD`, `rW`; classes list their items; `{m,n}` repetition uses
`rexact`/`rbetween`/`ratleast`; `+?`/`*?` are the lazy variants. -/

def cDateSep : RE := RE.cls false [.ch '-', .ch '/', .ch '.']
def cAlpha : RE := RE.cls false [.rng 'A' 'Z', .rng 'a' 'z']
def cColonSpace : RE := RE.cls false [.ch ':', .space]
def cDigit09 : RE := RE.cls false [.rng '0' '9']
def rColonOpt : RE := ropt true (RE.lit ':')
def rCurrencyTok : RE := ralts [rstr "EUR", rstr "USD", RE.lit '$']
def rNumDotTail : RE :=
  rcat [rplus true rD, ropt true (RE.lit '.'), rstar true rD]

-- PO Number[:\s]*([^\s]+)
def pInv1 : RE :=
  rcat [rstr "PO Number", rstar true cColonSpace,
        RE.grp 1 (rplus true (RE.cls true [.space]))]

-- PO\s*Number\s*:?\s*(\d+)
def pInv2 : RE :=
  rcat [rstr "PO", rstar true rS, rstr "Number", rstar true rS, rColonOpt,
        rstar true rS, RE.grp 1 (rplus true rD)]

-- INVOICE\s*(?:ID|#)\s*(?:INV/)?([0-9/-]+)
def pInv3 : RE :=
  rcat [rstr "INVOICE", rstar true rS, RE.alt (rstr "ID") (RE.lit '#'),
        rstar true rS, ropt true (rstr "INV/"),
        RE.grp 1 (rplus true (RE.cls false [.rng '0' '9', .ch '/', .ch '-']))]

-- invoice\s*number\s*([A-Z0-9-]+)
def pInv4 : RE :=
  rcat [rstr "invoice", rstar true rS, rstr "number", rstar true rS,
        RE.grp 1 (rplus true (RE.cls false [.rng 'A' 'Z', .rng '0' '9', .ch '-']))]

-- INVOICE\s*#\s*(\d+(?:-\d+)?)
def pInv5 : RE :=
  rcat [rstr "INVOICE", rstar true rS, RE.lit '#', rstar true rS,
        RE.grp 1 (rcat [rplus true rD,
                        ropt true (rcat [RE.lit '-', rplus true rD])])]

-- Invoice\s*number\s*:\s*([A-Z0-9-]+)
def pInv6 : RE :=
  rcat [rstr "Invoice", rstar true rS, rstr "number", rstar true rS,
        RE.lit ':', rstar true rS,
        RE.grp 1 (rplus true (RE.cls false [.rng 'A' 'Z', .rng '0' '9', .ch '-']))]

/-- The twelve-entry `invoice_patterns` list (six patterns listed twice). -/
def invoicePatterns : List RE :=
  [pInv1, pInv2, pInv3, pInv4, pInv5, pInv6,
   pInv1, pInv2, pInv3, pInv4, pInv5, pInv6]

-- group bodies shared by the date patterns
def gDayMonYear : RE :=      -- (\d{1,2}[-/.][A-Za-z]{3}[-/.]\d{4})
  rcat [rbetween 1 2 rD, cDateSep, rexact 3 cAlpha, cDateSep, rexact 4 rD]
def gNumDate : RE :=         -- (\d{1,2}[-/.]\d{1,2}[-/.]\d{4})
  rcat [rbetween 1 2 rD, cDateSep, rbetween 1 2 rD, cDateSep, rexact 4 rD]
def gIsoDate : RE :=         -- (\d{4}[-/.]\d{1,2}[-/.]\d{1,2})
  rcat [rexact 4 rD, cDateSep, rbetween 1 2 rD, cDateSep, rbetween 1 2 rD]
def gDashDate : RE :=        -- ([0-9]{1,2}-[A-Za-z]{3}-[0-9]{4})
  rcat [rbetween 1 2 cDigit09, RE.lit '-', rexact 3 cAlpha, RE.lit '-',
        rexact 4 cDigit09]

-- (?:Invoice\s+)?Date\s*:?\s*(\d{1,2}[-/.][A-Za-z]{3}[-/.]\d{4})
def pDate1 : RE :=
  rcat [ropt true (rcat [rstr "Invoice", rplus true rS]), rstr "Date",
        rstar true rS, rColonOpt, rstar true rS, RE.grp 1 gDayMonYear]

-- Date\s*:?\s*(\d{1,2}[-/.][A-Za-z]{3}[-/.]\d{4})
def pDate2 : RE :=
  rcat [rstr "Date", rstar true rS, rColonOpt, rstar true rS,
        RE.grp 1 gDayMonYear]

-- Date\s*:?\s*(\d{1,2}[-/.]\d{1,2}[-/.]\d{4})
def pDate3 : RE :=
  rcat [rstr "Date", rstar true rS, rColonOpt, rstar true rS, RE.grp 1 gNumDate]

-- Date\s*:?\s*(\d{4}[-/.]\d{1,2}[-/.]\d{1,2})
def pDate4 : RE :=
  rcat [rstr "Date", rstar true rS, rColonOpt, rstar true rS, RE.grp 1 gIsoDate]

-- Invoice\s+Date\s*:?\s*(\d{1,2}[-/.][A-Za-z]{3}[-/.]\d{4})
def pDate5 : RE :=
  rcat [rstr "Invoice", rplus true rS, rstr "Date", rstar true rS, rColonOpt,
        rstar true rS, RE.grp 1 gDayMonYear]

-- Date[:\s]*([0-9]{1,2}-[A-Za-z]{3}-[0-9]{4})
def pDate6 : RE :=
  rcat [rstr "Date", rstar true cColonSpace, RE.grp 1 gDashDate]

-- (?:Invoice\s+)?Date\s*:?\s*(\d{2}-[A-Za-z]{3}-\d{4})
def pDate7 : RE :=
  rcat [ropt true (rcat [rstr "Invoice", rplus true rS]), rstr "Date",
        rstar true rS, rColonOpt, rstar true rS,
        RE.grp 1 (rcat [rexact 2 rD, RE.lit '-', rexact 3 cAlpha, RE.lit '-',
                        rexact 4 rD])]

/-- The eleven-entry `date_patterns` list. -/
def datePatterns : List RE :=
  [pDate1, pDate2, pDate3, pDate4, pDate5, pDate6, pDate7,
   pDate2, pDate3, pDate4, pDate6]

-- Due\s+Date\s*:?\s*(\d{2}-[A-Za-z]{3}-\d{4})
def pDue1 : RE :=
  rcat [rstr "Due", rplus true rS, rstr "Date", rstar true rS, rColonOpt,
        rstar true rS,
        RE.grp 1 (rcat [rexact 2 rD, RE.lit '-', rexact 3 cAlpha, RE.lit '-',
                        rexact 4 rD])]

-- Due\s+Date\s*:?\s*(\d{2}/\d{2}/\d{4})
def pDue2 : RE :=
  rcat [rstr "Due", rplus true rS, rstr "Date", rstar true rS, rColonOpt,
        rstar true rS,
        RE.grp 1 (rcat [rexact 2 rD, RE.lit '/', rexact 2 rD, RE.lit '/',
                        rexact 4 rD])]

-- Due\s+Date\s*:?\s*(\d{2}\.\d{2}\.\d{4})
def pDue3 : RE :=
  rcat [rstr "Due", rplus true rS, rstr "Date", rstar true rS, rColonOpt,
        rstar true rS,
        RE.grp 1 (rcat [rexact 2 rD, RE.lit '.', rexact 2 rD, RE.lit '.',
                        rexact 4 rD])]

-- Due Date[:\s]*([0-9]{1,2}-[A-Za-z]{3}-[0-9]{4})
def pDue4 : RE :=
  rcat [rstr "Due Date", rstar true cColonSpace, RE.grp 1 gDashDate]

-- Due\s+Date\s*:?\s*(\d{1,2}[-/.]\d{1,2}[-/.]\d{4})
def pDue6 : RE :=
  rcat [rstr "Due", rplus true rS, rstr "Date", rstar true rS, rColonOpt,
        rstar true rS, RE.grp 1 gNumDate]

-- Due\s+Date\s*:?\s*(\d{4}[-/.]\d{1,2}[-/.]\d{1,2})
def pDue7 : RE :=
  rcat [rstr "Due", rplus true rS, rstr "Date", rstar true rS, rColonOpt,
        rstar true rS, RE.grp 1 gIsoDate]

/-- The eight-entry `due_date_patterns` list. -/
def dueDatePatterns : List RE :=
  [pDue1, pDue2, pDue3, pDue4, pDue1, pDue6, pDue7, pDue4]

-- TOTAL\s*:?\s*(\d+\.?\d*)\s*(?:EUR|USD|\$)
def pTot1 : RE :=
  rcat [rstr "TOTAL", rstar true rS, rColonOpt, rstar true rS,
        RE.grp 1 rNumDotTail, rstar true rS, rCurrencyTok]

-- TOTAL\s*:?\s*(\d+,\d{2})\s*(?:EUR|USD|\$)
def pTot2 : RE :=
  rcat [rstr "TOTAL", rstar true rS, rColonOpt, rstar true rS,
        RE.grp 1 (rcat [rplus true rD, RE.lit ',', rexact 2 rD]),
        rstar true rS, rCurrencyTok]

-- TOTAL\s*:?\s*(?:EUR|USD|\$)\s*(\d+\.?\d*)
def pTot3 : RE :=
  rcat [rstr "TOTAL", rstar true rS, rColonOpt, rstar true rS, rCurrencyTok,
        rstar true rS, RE.grp 1 rNumDotTail]

-- TOTAL\s*:?\s*(?:EUR|USD|\$)\s*(\d+,\d{2})
def pTot4 : RE :=
  rcat [rstr "TOTAL", rstar true rS, rColonOpt, rstar true rS, rCurrencyTok,
        rstar true rS,
        RE.grp 1 (rcat [rplus true rD, RE.lit ',', rexact 2 rD])]

-- TOTAL\s*:?\s*(\d+\.?\d*)
def pTot5 : RE :=
  rcat [rstr "TOTAL", rstar true rS, rColonOpt, rstar true rS,
        RE.grp 1 rNumDotTail]

-- TOTAL\s*:?\s*(\d+)
def pTot6 : RE :=
  rcat [rstr "TOTAL", rstar true rS, rColonOpt, rstar true rS,
        RE.grp 1 (rplus true rD)]

-- Total\s*:?\s*(\d+\.?\d*)
def pTot7 : RE :=
  rcat [rstr "Total", rstar true rS, rColonOpt, rstar true rS,
        RE.grp 1 rNumDotTail]

-- Total\s*:?\s*(\d+\.?\d*)\s*(?:EUR|USD|\$)
def pTot8 : RE :=
  rcat [rstr "Total", rstar true rS, rColonOpt, rstar true rS,
        RE.grp 1 rNumDotTail, rstar true rS, rCurrencyTok]

-- TOTAL\s*:\s*(\d+\.?\d*)\s*\$
def pTot9 : RE :=
  rcat [rstr "TOTAL", rstar true rS, RE.lit ':', rstar true rS,
        RE.grp 1 rNumDotTail, rstar true rS, RE.lit '$']

-- Total\s+in\s+words[^:]*?:\s*[^:]*?:\s*(\d+\.?\d*)
def pTot10 : RE :=
  rcat [rstr "Total", rplus true rS, rstr "in", rplus true rS, rstr "words",
        rstar false (RE.cls true [.ch ':']), RE.lit ':', rstar true rS,
        rstar false (RE.cls true [.ch ':']), RE.lit ':', rstar true rS,
        RE.grp 1 rNumDotTail]

-- TOTAL\s*:\s*(?:EUR|USD|\$)?\s*(\d+[.,]\d{2})
def pTot11 : RE :=
  rcat [rstr "TOTAL", rstar true rS, RE.lit ':', rstar true rS,
        ropt true rCurrencyTok, rstar true rS,
        RE.grp 1 (rcat [rplus true rD, RE.cls false [.ch '.', .ch ','],
                        rexact 2 rD])]

-- Total\s*Amount\s*:?\s*(\d+\.?\d*)
def pTot12 : RE :=
  rcat [rstr "Total", rstar true rS, rstr "Amount", rstar true rS, rColonOpt,
        rstar true rS, RE.grp 1 rNumDotTail]

-- Amount\s+Due\s*:?\s*(\d+\.?\d*)
def pTot13 : RE :=
  rcat [rstr "Amount", rplus true rS, rstr "Due", rstar true rS, rColonOpt,
        rstar true rS, RE.grp 1 rNumDotTail]

-- TOTAL[:\s]*\$?([0-9,]+\.[0-9]{2})
def pTot14 : RE :=
  rcat [rstr "TOTAL", rstar true cColonSpace, ropt true (RE.lit '$'),
        RE.grp 1 (rcat [rplus true (RE.cls false [.rng '0' '9', .ch ',']),
                        RE.lit '.', rexact 2 cDigit09])]

def totalPatterns : List RE :=
  [pTot1, pTot2, pTot3, pTot4, pTot5, pTot6, pTot7, pTot8, pTot9, pTot10,
   pTot11, pTot12, pTot13, pTot14]

-- SUB[_\s]?TOTAL
def rSubTotalHead : RE :=
  rcat [rstr "SUB", ropt true (RE.cls false [.ch '_', .space]), rstr "TOTAL"]

-- SUB[_\s]?TOTAL\s*:\s*(\d+\.?\d*)\s*(?:EUR|USD|\$)
def pSub1 : RE :=
  rcat [rSubTotalHead, rstar true rS, RE.lit ':', rstar true rS,
        RE.grp 1 rNumDotTail, rstar true rS, rCurrencyTok]

-- SUB[_\s]?TOTAL\s*:\s*(\d+,\d{2})\s*(?:EUR|USD|\$)
def pSub2 : RE :=
  rcat [rSubTotalHead, rstar true rS, RE.lit ':', rstar true rS,
        RE.grp 1 (rcat [rplus true rD, RE.lit ',', rexact 2 rD]),
        rstar true rS, rCurrencyTok]

/-- The source has no comma between the third and fourth string literal of
`subtotal_patterns`, so Python concatenates them into this single
two-group pattern:
`SUB[_\s]?TOTAL\s*:\s*(\d+\.?\d*)SUB[_\s]?TOTAL\s*:?\s*(?:EUR|USD|\$)?\s*(\d+[.,]\d{2})` -/
def pSub3 : RE :=
  rcat [rSubTotalHead, rstar true rS, RE.lit ':', rstar true rS,
        RE.grp 1 rNumDotTail,
        rSubTotalHead, rstar true rS, rColonOpt, rstar true rS,
        ropt true rCurrencyTok, rstar true rS,
        RE.grp 2 (rcat [rplus true rD, RE.cls false [.ch '.', .ch ','],
                        rexact 2 rD])]

-- Net\s+Amount\s*:?\s*(\d+\.?\d*)
def pSub4 : RE :=
  rcat [rstr "Net", rplus true rS, rstr "Amount", rstar true rS, rColonOpt,
        rstar true rS, RE.grp 1 rNumDotTail]

-- Sub\s*Total\s*:?\s*(\d+\.?\d*)
def pSub5 : RE :=
  rcat [rstr "Sub", rstar true rS, rstr "Total", rstar true rS, rColonOpt,
        rstar true rS, RE.grp 1 rNumDotTail]

-- Subtotal\s*Amount\s*:?\s*(\d+\.?\d*)
def pSub6 : RE :=
  rcat [rstr "Subtotal", rstar true rS, rstr "Amount", rstar true rS,
        rColonOpt, rstar true rS, RE.grp 1 rNumDotTail]

-- SUB_TOTAL[:\s]*\$?([0-9,]+\.[0-9]{2})
def pSub7 : RE :=
  rcat [rstr "SUB_TOTAL", rstar true cColonSpace, ropt true (RE.lit '$'),
        RE.grp 1 (rcat [rplus true (RE.cls false [.rng '0' '9', .ch ',']),
                        RE.lit '.', rexact 2 cDigit09])]

def subtotalPatterns : List RE :=
  [pSub1, pSub2, pSub3, pSub4, pSub5, pSub6, pSub7]

-- TAX:?\s*VAT\s*\((\d+\.?\d*)%\)\s*:?\s*(\d+\.?\d*)
def pTax1 : RE :=
  rcat [rstr "TAX", rColonOpt, rstar true rS, rstr "VAT", rstar true rS,
        RE.lit '(', RE.grp 1 rNumDotTail, RE.lit '%', RE.lit ')',
        rstar true rS, rColonOpt, rstar true rS, RE.grp 2 rNumDotTail]

-- TAX:?\s*VAT\s*:?\s*(\d+\.?\d*)
def pTax2 : RE :=
  rcat [rstr "TAX", rColonOpt, rstar true rS, rstr "VAT", rstar true rS,
        rColonOpt, rstar true rS, RE.grp 1 rNumDotTail]

/-- Again a missing comma in the source concatenates two adjacent literals
into one three-group pattern:
`GST\(%\)\s*:?\s*(\d+\.?\d*)TAX:?\s*\((\d+\.?\d*)%\)\s*:?\s*(\d+\.?\d*)` -/
def pTax3 : RE :=
  rcat [rstr "GST", RE.lit '(', RE.lit '%', RE.lit ')', rstar true rS,
        rColonOpt, rstar true rS, RE.grp 1 rNumDotTail,
        rstr "TAX", rColonOpt, rstar true rS, RE.lit '(',
        RE.grp 2 rNumDotTail, RE.lit '%', RE.lit ')', rstar true rS,
        rColonOpt, rstar true rS, RE.grp 3 rNumDotTail]

-- VAT\s*\((\d+\.?\d*)%\)\s*:?\s*(\d+\.?\d*)
def pTax4 : RE :=
  rcat [rstr "VAT", rstar true rS, RE.lit '(', RE.grp 1 rNumDotTail,
        RE.lit '%', RE.lit ')', rstar true rS, rColonOpt, rstar true rS,
        RE.grp 2 rNumDotTail]

-- Tax\s*Amount\s*:?\s*(\d+\.?\d*)
def pTax5 : RE :=
  rcat [rstr "Tax", rstar true rS, rstr "Amount", rstar true rS, rColonOpt,
        rstar true rS, RE.grp 1 rNumDotTail]

-- GST\s*\((\d+)%\)\s*:?\s*(\d+\.?\d*)
def pTax6 : RE :=
  rcat [rstr "GST", rstar true rS, RE.lit '(', RE.grp 1 (rplus true rD),
        RE.lit '%', RE.lit ')', rstar true rS, rColonOpt, rstar true rS,
        RE.grp 2 rNumDotTail]

-- TAX:?\s*VAT\s*:?\s*(\d+\.?\d*)\s*(?:EUR|USD|\$)
def pTax7 : RE :=
  rcat [rstr "TAX", rColonOpt, rstar true rS, rstr "VAT", rstar true rS,
        rColonOpt, rstar true rS, RE.grp 1 rNumDotTail, rstar true rS,
        rCurrencyTok]

-- TAX[:\s]*[^\d]*\$?([0-9,]+\.[0-9]{2})
def pTax8 : RE :=
  rcat [rstr "TAX", rstar true cColonSpace, rstar true (RE.cls true [.digit]),
        ropt true (RE.lit '$'),
        RE.grp 1 (rcat [rplus true (RE.cls false [.rng '0' '9', .ch ',']),
                        RE.lit '.', rexact 2 cDigit09])]

def taxPatterns : List RE :=
  [pTax1, pTax2, pTax3, pTax4, pTax5, pTax6, pTax7, pTax8]

-- DISCOUNT\s*\((\d+\.?\d*)%\)\s*:?\s*\(?\s*(\d+\.?\d*)\s*(?:EUR|USD|\$)?\)?
def pDisc1 : RE :=
  rcat [rstr "DISCOUNT", rstar true rS, RE.lit '(', RE.grp 1 rNumDotTail,
        RE.lit '%', RE.lit ')', rstar true rS, rColonOpt, rstar true rS,
        ropt true (RE.lit '('), rstar true rS, RE.grp 2 rNumDotTail,
        rstar true rS, ropt true rCurrencyTok, ropt true (RE.lit ')')]

-- DISCOUNT\s*\((\d+\.?\d*)%\)\s*:?\s*(\d+\.?\d*)
def pDisc2 : RE :=
  rcat [rstr "DISCOUNT", rstar true rS, RE.lit '(', RE.grp 1 rNumDotTail,
        RE.lit '%', RE.lit ')', rstar true rS, rColonOpt, rstar true rS,
        RE.grp 2 rNumDotTail]

-- DISCOUNT[:\s]*[^\d]*\$?([0-9,]+\.[0-9]{2})
def pDisc3 : RE :=
  rcat [rstr "DISCOUNT", rstar true cColonSpace,
        rstar true (RE.cls true [.digit]), ropt true (RE.lit '$'),
        RE.grp 1 (rcat [rplus true (RE.cls false [.rng '0' '9', .ch ',']),
                        RE.lit '.', rexact 2 cDigit09])]

def discountPatterns : List RE := [pDisc1, pDisc2, pDisc3]

-- Bill\s+to\s*:?\s*([^:\n]+?)(?=\s+\d{5}|\s+Email|Tel|GSTIN|$)
def pBuy1 : RE :=
  rcat [rstr "Bill", rplus true rS, rstr "to", rstar true rS, rColonOpt,
        rstar true rS,
        RE.grp 1 (rplus false (RE.cls true [.ch ':', .ch '\n'])),
        RE.look (ralts [rcat [rplus true rS, rexact 5 rD],
                        rcat [rplus true rS, rstr "Email"],
                        rstr "Tel", rstr "GSTIN", RE.eos])]

-- Buyer\s*:?\s*([^:\n]+?)(?=\s+\d{5}|\s+Email|Tel|GSTIN|$)
def pBuy2 : RE :=
  rcat [rstr "Buyer", rstar true rS, rColonOpt, rstar true rS,
        RE.grp 1 (rplus false (RE.cls true [.ch ':', .ch '\n'])),
        RE.look (ralts [rcat [rplus true rS, rexact 5 rD],
                        rcat [rplus true rS, rstr "Email"],
                        rstr "Tel", rstr "GSTIN", RE.eos])]

-- Bill\s+to\s*:?\s*([^:\n]+?)(?=\s+(?:\d{1,5}|Email|Tel|GSTIN|$))
def pBuy3 : RE :=
  rcat [rstr "Bill", rplus true rS, rstr "to", rstar true rS, rColonOpt,
        rstar true rS,
        RE.grp 1 (rplus false (RE.cls true [.ch ':', .ch '\n'])),
        RE.look (rcat [rplus true rS,
                       ralts [rbetween 1 5 rD, rstr "Email", rstr "Tel",
                              rstr "GSTIN", RE.eos]])]

-- Bill\s+to\s*:?\s*([^\n]+?)(?=\s+Tel:)
def pBuy4 : RE :=
  rcat [rstr "Bill", rplus true rS, rstr "to", rstar true rS, rColonOpt,
        rstar true rS, RE.grp 1 (rplus false (RE.cls true [.ch '\n'])),
        RE.look (rcat [rplus true rS, rstr "Tel:"])]

-- Bill\s+to\s*:?\s*([^\n]+?)(?=\s+Email:)
def pBuy5 : RE :=
  rcat [rstr "Bill", rplus true rS, rstr "to", rstar true rS, rColonOpt,
        rstar true rS, RE.grp 1 (rplus false (RE.cls true [.ch '\n'])),
        RE.look (rcat [rplus true rS, rstr "Email:"])]

-- Bill\s+to\s*:?\s*([^\n]+?)(?=\s+Site:)
def pBuy6 : RE :=
  rcat [rstr "Bill", rplus true rS, rstr "to", rstar true rS, rColonOpt,
        rstar true rS, RE.grp 1 (rplus false (RE.cls true [.ch '\n'])),
        RE.look (rcat [rplus true rS, rstr "Site:"])]

-- Bill to[:\s]*([^0-9]+)
def pBuy7 : RE :=
  rcat [rstr "Bill to", rstar true cColonSpace,
        RE.grp 1 (rplus true (RE.cls true [.rng '0' '9']))]

def buyerPatterns : List RE :=
  [pBuy1, pBuy2, pBuy3, pBuy4, pBuy5, pBuy6, pBuy7]

-- (?:State|Central)\s+Bank\s+of\s+([A-Za-z]+)   (used with match.group(0))
def bankNamePattern : RE :=
  rcat [RE.alt (rstr "State") (rstr "Central"), rplus true rS, rstr "Bank",
        rplus true rS, rstr "of", rplus true rS,
        RE.grp 1 (rplus true (RE.cls false [.rng 'A' 'Z', .rng 'a' 'z']))]

-- Branch\s+Name\s+([^(]+?)(?=\s+(?:Bank|Account|Swift|\(|$))
def branchNamePattern : RE :=
  rcat [rstr "Branch", rplus true rS, rstr "Name", rplus true rS,
        RE.grp 1 (rplus false (RE.cls true [.ch '('])),
        RE.look (rcat [rplus true rS,
                       ralts [rstr "Bank", rstr "Account", rstr "Swift",
                              RE.lit '(', RE.eos]])]

-- Bank\s+Account\s+Number\s+(\d+)
def accountNumberPattern : RE :=
  rcat [rstr "Bank", rplus true rS, rstr "Account", rplus true rS,
        rstr "Number", rplus true rS, RE.grp 1 (rplus true rD)]

-- Bank\s+Swift\s+Code\s+([A-Z0-9]+)
def swiftCodePattern : RE :=
  rcat [rstr "Bank", rplus true rS, rstr "Swift", rplus true rS,
        rstr "Code", rplus true rS,
        RE.grp 1 (rplus true (RE.cls false [.rng 'A' 'Z', .rng '0' '9']))]

-- (?:GSTIN|OG@AAMFCO376K124)\s*:?\s*([0-9A-Z@]+)   (searched without flags)
def gstinPattern : RE :=
  rcat [RE.alt (rstr "GSTIN") (rstr "OG@AAMFCO376K124"), rstar true rS,
        rColonOpt, rstar true rS,
        RE.grp 1 (rplus true (RE.cls false [.rng '0' '9', .rng 'A' 'Z',
                                            .ch '@']))]

-- (?P<ITEMS>[\w\s]+)\n(?P<QUANTITY>[0-9.]+)\n(?P<PRICE>[$€]?[0-9,.]+)
-- (named groups numbered 1..3; searched without flags)
def itemPattern : RE :=
  rcat [RE.grp 1 (rplus true (RE.cls false [.word, .space])), RE.lit '\n',
        RE.grp 2 (rplus true (RE.cls false [.rng '0' '9', .ch '.'])),
        RE.lit '\n',
        RE.grp 3 (rcat [ropt true (RE.cls false [.ch '$', .ch '€']),
                        rplus true (RE.cls false [.rng '0' '9', .ch ',',
                                                  .ch '.'])])]

-- \$|USD   (searched without flags)
def currencyPattern : RE := RE.alt (RE.lit '$') (rstr "USD")

-- Email[:\s]*([\w.-]+@[\w.-]+\.\w+)
def emailPattern : RE :=
  rcat [rstr "Email", rstar true cColonSpace,
        RE.grp 1 (rcat [rplus true (RE.cls false [.word, .ch '.', .ch '-']),
                        RE.lit '@',
                        rplus true (RE.cls false [.word, .ch '.', .ch '-']),
                        RE.lit '.', rplus true rW])]

-- (?:Tel|Phone)[:\s]*([+\d\s-]{8,})
def phonePattern : RE :=
  rcat [RE.alt (rstr "Tel") (rstr "Phone"), rstar true cColonSpace,
        RE.grp 1 (ratleast 8 (RE.cls false [.ch '+', .digit, .space,
                                            .ch '-']))]

-- Address[:\s]*(.*?)(?=\n\s*(?:GSTIN|Phone|Email))   (IGNORECASE | DOTALL)
def addressPattern : RE :=
  rcat [rstr "Address", rstar true cColonSpace, RE.grp 1 (rstar false RE.dot),
        RE.look (rcat [RE.lit '\n', rstar true rS,
                       ralts [rstr "GSTIN", rstr "Phone", rstr "Email"]])]

/-! ## Field extraction (`_extract_invoice_details` body) -/

def pyStrip (s : String) : String := String.mk (pyStripList s.data)

def commaToDot (s : String) : String :=
  String.mk (s.data.map (fun c => if c == ',' then '.' else c))

/-- Cascade used for invoice number / date / due date: the first matching
pattern wins and iteration stops (`break`); the value is `match.group(1)`. -/
def extractFirstGroup (fl : ReFlags) : List RE → List Char → Option String
  | [], _ => none
  | p :: rest, inp =>
    match reSearch fl p inp with
    | some m => groupGet m.groups 1
    | none => extractFirstGroup fl rest inp

/-- Same cascade with `match.group(1).strip()` (buyer information). -/
def extractFirstGroupStrip (fl : ReFlags) : List RE → List Char → Option String
  | [], _ => none
  | p :: rest, inp =>
    match reSearch fl p inp with
    | some m => (groupGet m.groups 1).map pyStrip
    | none => extractFirstGroupStrip fl rest inp

/-- Total / subtotal cascade: float of the first capture with every comma
replaced by a dot; a ValueError continues with the next pattern, success
breaks. -/
def extractAmountFrom : List RE → List Char → Option Rat
  | [], _ => none
  | p :: rest, inp =>
    match reSearch flagsI p inp with
    | some m =>
      match (groupGet m.groups 1).bind (fun s => pyFloat (commaToDot s)) with
      | some v => some v
      | none => extractAmountFrom rest inp
    | none => extractAmountFrom rest inp

/-- `float(x)` where `x` is `match.group(i)`: raises on a missing capture or
an unparseable string (neither exception is caught in the tax and discount
blocks, so they abort `_extract_invoice_details`). -/
def pyFloatArg (g : Option String) : Except String Rat :=
  match g with
  | none => .error "float() argument must be a string or a real number, not NoneType"
  | some s =>
    match pyFloat s with
    | some v => .ok v
    | none => .error ("could not convert string to float: " ++ s)

/-- `match.group(i)` raising IndexError when the pattern declares fewer than
`i` groups (the third discount pattern has only one group). -/
def pyGroupStrict (p : RE) (gs : GroupList) (i : Nat) : Except String (Option String) :=
  if i > reNumGroups p then .error "no such group" else .ok (groupGet gs i)

/-- Tax cascade (lines 413-423): two-or-more-group patterns set both the
percentage and the amount, one-group patterns only the amount. -/
def extractTaxFrom : List RE → List Char → Except String (Option Rat × Option Rat)
  | [], _ => .ok (none, none)
  | p :: rest, inp =>
    match reSearch flagsI p inp with
    | none => extractTaxFrom rest inp
    | some m =>
      if reNumGroups p > 1 then
        match pyFloatArg (groupGet m.groups 1) with
        | .error e => .error e
        | .ok pc =>
          match pyFloatArg (groupGet m.groups 2) with
          | .error e => .error e
          | .ok tx => .ok (some pc, some tx)
      else
        match pyFloatArg (groupGet m.groups 1) with
        | .error e => .error e
        | .ok tx => .ok (none, some tx)

/-- Discount cascade (lines 432-439): unconditionally reads groups 1 and 2,
so a match of the one-group third pattern raises IndexError. -/
def extractDiscountFrom : List RE → List Char → Except String (Option Rat × Option Rat)
  | [], _ => .ok (none, none)
  | p :: rest, inp =>
    match reSearch flagsI p inp with
    | none => extractDiscountFrom rest inp
    | some m =>
      match pyGroupStrict p m.groups 1 with
      | .error e => .error e
      | .ok g1 =>
        match pyFloatArg g1 with
        | .error e => .error e
        | .ok pc =>
          match pyGroupStrict p m.groups 2 with
          | .error e => .error e
          | .ok g2 =>
            match pyFloatArg g2 with
            | .error e => .error e
            | .ok dc => .ok (some pc, some dc)

structure LineItem where
  name : String
  quantity : Rat
  price : Rat
deriving DecidableEq

/-- `str.replace` deleting each character of `drop`. -/
def stripChars (s : String) (drop : List Char) : String :=
  String.mk (s.data.filter (fun c => !(drop.contains c)))

/-- Items loop (lines 474-488): one entry per `finditer` match, entries whose
numeric coercion fails are silently dropped. -/
def extractItems (inp : List Char) : List LineItem :=
  (reFindIter flagsNone itemPattern inp).filterMap (fun m => do
    let priceStr ← groupGet m.groups 3
    let nameStr ← groupGet m.groups 1
    let qtyStr ← groupGet m.groups 2
    let q ← pyFloat qtyStr
    let pr ← pyFloat (stripChars priceStr ['$', '€', ','])
    some ⟨pyStrip nameStr, q, pr⟩)

/-- Decimal rendering of a rational, as Python would print the floats that
can actually appear here; only used inside `pyStrItems`, and claim C10 shows
the items list is always empty, so no non-trivial value is ever rendered. -/
def ratPyRepr (q : Rat) : String :=
  let sgn := if q < 0 then "-" else ""
  let n := q.num.natAbs
  let d := q.den
  let ip := n / d
  let frac6 := (n % d) * 1000000 / d
  let fracStr :=
    let raw := (Nat.toDigits 10 (1000000 + frac6)).drop 1
    let trimmed := (raw.reverse.dropWhile (fun c => c == '0')).reverse
    if trimmed.isEmpty then "0" else String.mk trimmed
  sgn ++ toString ip ++ "." ++ fracStr

/-- Python `str` of the items list of dicts (line 529 stores `str(items)`). -/
def pyStrItems (l : List LineItem) : String :=
  "[" ++ String.intercalate ", "
    (l.map (fun it =>
      "\x7b\x27ITEMS\x27: \x27" ++ it.name ++ "\x27, \x27QUANTITY\x27: " ++
      ratPyRepr it.quantity ++ ", \x27PRICE\x27: " ++ ratPyRepr it.price ++
      "\x7d")) ++ "]"

structure ClientData where
  name : Option String
  email : Option String
  phone : Option String
  address : Option String
deriving DecidableEq

structure InvoiceData where
  invoice_number : Option String
  date : Option String
  due_date : Option String
  bill_to : Option String
  total : Option Rat
  subtotal : Option Rat
  tax_percentage : Option Rat
  tax : Option Rat
  discount_percentage : Option Rat
  discount : Option Rat
  currency : Option String
  gstin : Option String
  bank_name : Option String
  branch_name : Option String
  account_number : Option String
  bank_swift_code : Option String
  client : ClientData
  items : String
deriving DecidableEq

/-- `EnhancedInvoiceProcessor._extract_invoice_details` (lines 279-532).
`Except.error` is an uncaught Python exception escaping the method (the tax
and discount blocks can raise ValueError resp. IndexError). -/
def extract_invoice_details (text : String) : Except String InvoiceData :=
  let inp := (normalizeText text).data
  let invoice_number := extractFirstGroup flagsI invoicePatterns inp
  let invoice_date := extractFirstGroup flagsI datePatterns inp
  let due_date := extractFirstGroup flagsI dueDatePatterns inp
  let total := extractAmountFrom totalPatterns inp
  let subtotal := extractAmountFrom subtotalPatterns inp
  match extractTaxFrom taxPatterns inp with
  | .error e => .error e
  | .ok (tax_percentage, tax) =>
  match extractDiscountFrom discountPatterns inp with
  | .error e => .error e
  | .ok (discount_percentage, discount) =>
  let buyer_info := extractFirstGroupStrip flagsI buyerPatterns inp
  let bank_name := (reSearch flagsI bankNamePattern inp).map
    (fun m => sliceStr inp m.startPos m.endPos)
  let branch_name := (reSearch flagsI branchNamePattern inp).bind
    (fun m => (groupGet m.groups 1).map pyStrip)
  let account_number := (reSearch flagsI accountNumberPattern inp).bind
    (fun m => groupGet m.groups 1)
  let swift_code := (reSearch flagsI swiftCodePattern inp).bind
    (fun m => groupGet m.groups 1)
  let gstin := (reSearch flagsNone gstinPattern inp).bind
    (fun m => groupGet m.groups 1)
  let items := extractItems inp
  let currency := if (reSearch flagsNone currencyPattern inp).isSome
    then "USD" else "EUR"
  let email := (reSearch flagsI emailPattern inp).bind
    (fun m => (groupGet m.groups 1).map pyStrip)
  let phone := (reSearch flagsI phonePattern inp).bind
    (fun m => (groupGet m.groups 1).map pyStrip)
  let address := (reSearch flagsIDotall addressPattern inp).bind
    (fun m => (groupGet m.groups 1).map pyStrip)
  .ok { invoice_number := invoice_number,
        date := invoice_date,
        due_date := due_date,
        bill_to := buyer_info,
        total := total,
        subtotal := subtotal,
        tax_percentage := tax_percentage,
        tax := tax,
        discount_percentage := discount_percentage,
        discount := discount,
        currency := some currency,
        gstin := gstin,
        bank_name := bank_name,
        branch_name := branch_name,
        account_number := account_number,
        bank_swift_code := swift_code,
        client := ⟨buyer_info, email, phone, address⟩,
        items := pyStrItems items }

/-! ## Database model (`DatabaseManager`, lines 111-223)

The three tables of `init_db` as in-memory lists of typed rows.  The only
constraints the schema declares that this code can violate are the TEXT
PRIMARY KEY of `invoices.id` and `NOT NULL` on `clients.name`; both are
modelled.  `invalid_invoices` has an AUTOINCREMENT key and nullable
columns, so inserts into it always succeed. -/

structure Client where
  id : String
  name : String
  email : Option String
  phone : Option String
  address : Option String
deriving DecidableEq

structure InvoiceRow where
  id : String
  client_id : String
  invoice_number : String
  date : String
  due_date : String
  bill_to : String
  total : Option Rat
  subtotal : Option Rat
  tax : Option Rat
  gstin : Option String
  discount : Option Rat
  bank_name : Option String
  branch_name : Option String
  bank_account_number : Option String
  bank_swift_code : Option String
  status : String
  items : String
deriving DecidableEq

structure InvalidRow where
  invoice_number : Option String
  date : Option String
  due_date : Option String
  bill_to : Option String
  total : Option Rat
  subtotal : Option Rat
  tax : Option Rat
  gstin : Option String
  discount : Option Rat
  bank_name : Option String
  branch_name : Option String
  bank_account_number : Option String
  bank_swift_code : Option String
  status : String
  items : String
  error_message : String
deriving DecidableEq

structure DB where
  clients : List Client
  invoices : List InvoiceRow
  invalid_invoices : List InvalidRow
  uuidCounter : Nat
deriving DecidableEq

def emptyDB : DB := ⟨[], [], [], 0⟩

/-- Model of `str(uuid.uuid4())`: an external generator of fresh ids,
rendered deterministic through an explicit counter threaded in `DB`. -/
def uuidFor (n : Nat) : String := "uuid-" ++ toString n

/-- `DatabaseManager.get_client_by_email`: first row with that email. -/
def get_client_by_email (db : DB) (email : String) : Option Client :=
  db.clients.find? (fun cl => cl.email == some email)

/-- `DatabaseManager.get_client_by_phone`. -/
def get_client_by_phone (db : DB) (phone : String) : Option Client :=
  db.clients.find? (fun cl => cl.phone == some phone)

/-- `DatabaseManager.create_client`: INSERT into `clients`; violating the
`name TEXT NOT NULL` column raises sqlite3.IntegrityError. -/
def create_client (db : DB) (name email phone address : Option String) :
    Except String (String × DB) :=
  match name with
  | none => .error "NOT NULL constraint failed: clients.name"
  | some nm =>
    let cid := uuidFor db.uuidCounter
    .ok (cid, { db with
      clients := db.clients ++ [⟨cid, nm, email, phone, address⟩],
      uuidCounter := db.uuidCounter + 1 })

/-- Python truthiness of an optional string (the email/phone guards of the
resolver are false both for a missing value and for the empty string). -/
def pyTruthy : Option String → Bool
  | none => false
  | some s => !s.isEmpty

/-- `a or b` on an optional string and a default. -/
def pyOr (a : Option String) (b : String) : String :=
  match a with
  | none => b
  | some s => if s.isEmpty then b else s

/-- `EnhancedInvoiceProcessor._handle_client_processing` (lines 656-683).
Lookup by email, then by phone, then create; on a creation error the
except-branch creates the fallback identity (name "Unknown Client", email
"unknown@gmail.com"), which always succeeds since its name is non-null.
The extraction layer always passes a client dict that has a (possibly null)
name key, so the name-defaulting get call always returns that name and the
Unknown Client default of line 672 is never taken on this path. -/
def handle_client_processing (db : DB) (c : ClientData) : String × DB :=
  let emailHit :=
    if pyTruthy c.email then get_client_by_email db (c.email.getD "") else none
  match emailHit with
  | some cl => (cl.id, db)
  | none =>
    let phoneHit :=
      if pyTruthy c.phone then get_client_by_phone db (c.phone.getD "") else none
    match phoneHit with
    | some cl => (cl.id, db)
    | none =>
      match create_client db c.name c.email c.phone c.address with
      | .ok r => r
      | .error _ =>
        match create_client db (some "Unknown Client")
            (some "unknown@gmail.com") none none with
        | .ok r => r
        | .error _ => ("", db)   -- unreachable: the fallback name is non-null

/-- `json.dumps` of a Python string value (lines 562 and 627 serialize the
already-stringified items value; nothing this pipeline produces needs JSON
escaping). -/
def jsonStringDumps (s : String) : String := "\"" ++ s ++ "\""

/-- `EnhancedInvoiceProcessor.save_invalid_invoice` (lines 534-567).
`data` is either the extraction dict or `{}` (the outer exception path).
The method reads the key `bank_account_number`, which the extraction dict
never contains (it stores `account_number`), so that column is always NULL;
the items lookup yields the stringified items value for the extraction dict
and the empty list for the empty dict.  The insert cannot violate a constraint, so the internal
try/except never fires. -/
def save_invalid_invoice (db : DB) (data : Option InvoiceData)
    (error_message : String) : DB :=
  let row : InvalidRow :=
    match data with
    | none =>
      { invoice_number := none, date := none, due_date := none,
        bill_to := none, total := none, subtotal := none, tax := none,
        gstin := none, discount := none, bank_name := none,
        branch_name := none, bank_account_number := none,
        bank_swift_code := none, status := "invalid", items := "[]",
        error_message := error_message }
    | some d =>
      { invoice_number := d.invoice_number, date := d.date,
        due_date := d.due_date, bill_to := d.bill_to, total := d.total,
        subtotal := d.subtotal, tax := d.tax, gstin := d.gstin,
        discount := d.discount, bank_name := d.bank_name,
        branch_name := d.branch_name, bank_account_number := none,
        bank_swift_code := d.bank_swift_code, status := "invalid",
        items := jsonStringDumps d.items, error_message := error_message }
  { db with invalid_invoices := db.invalid_invoices ++ [row] }

/-- INSERT into `invoices`: fails exactly on a duplicate primary key. -/
def insertInvoiceRow (db : DB) (row : InvoiceRow) : Except String DB :=
  if db.invoices.any (fun r => r.id == row.id) then
    .error "UNIQUE constraint failed: invoices.id"
  else
    .ok { db with invoices := db.invoices ++ [row] }

/-- The id computation of `process_invoice` (lines 592-595): hash of the
invoice number when that is truthy, hash of `str(datetime.now())`
otherwise. -/
def invoiceIdFor (now : String) (num : Option String) : String :=
  if pyTruthy num then md5Hex (num.getD "") else md5Hex now

def strTake (s : String) (n : Nat) : String := String.mk (s.data.take n)

structure ProcResult where
  status : String
  error : Option String
  data : Option InvoiceData
deriving DecidableEq

/-- `EnhancedInvoiceProcessor.process_invoice` (lines 569-654).
`now` models the stringified datetime.now() value, `today` its
strftime rendering as year-month-day; both are external clock reads. -/
def process_invoice (now today : String) (db : DB) (text : String) :
    ProcResult × DB :=
  match extract_invoice_details text with
  | .error e =>
    -- outer except: save_invalid_invoice({}, error_message)
    (⟨"error", some e, none⟩, save_invalid_invoice db none e)
  | .ok invoice_data =>
    let r1 := handle_client_processing db invoice_data.client
    let client_id := r1.1
    let db1 := r1.2
    if invoice_data.currency = none then
      (⟨"error", some "Missing required field: currency", some invoice_data⟩,
       save_invalid_invoice db1 (some invoice_data)
         "Missing required field: currency")
    else
      let invoice_id := invoiceIdFor now invoice_data.invoice_number
      let dateV := pyOr invoice_data.date today
      let dueV := pyOr invoice_data.due_date dateV
      let billV := pyOr invoice_data.bill_to "Not found"
      let numV := pyOr invoice_data.invoice_number
        ("INV-" ++ strTake invoice_id 8)
      let d2 := { invoice_data with
        date := some dateV, due_date := some dueV, bill_to := some billV,
        invoice_number := some numV }
      let row : InvoiceRow :=
        { id := invoice_id, client_id := client_id, invoice_number := numV,
          date := dateV, due_date := dueV, bill_to := billV,
          total := invoice_data.total, subtotal := invoice_data.subtotal,
          tax := invoice_data.tax, gstin := invoice_data.gstin,
          discount := invoice_data.discount,
          bank_name := invoice_data.bank_name,
          branch_name := invoice_data.branch_name,
          bank_account_number := invoice_data.account_number,
          bank_swift_code := invoice_data.bank_swift_code,
          status := "pending", items := jsonStringDumps d2.items }
      match insertInvoiceRow db1 row with
      | .ok db2 => (⟨"success", none, some d2⟩, db2)
      | .error e =>
        (⟨"error", some "Failed to save invoice", some d2⟩,
         save_invalid_invoice db1 (some d2) ("Failed to save invoice: " ++ e))

/-! ## Batch coordinator (`process_files`, lines 686-725) -/

/-- One uploaded file; `text` is the recognized text the external OCR
collaborator would produce for it (never consulted for rejected files). -/
structure UFile where
  filename : String
  text : String
deriving DecidableEq

structure FileResult where
  status : String
  filename : String
  error : Option String
  data : Option InvoiceData
deriving DecidableEq

/-- Last index of `c` in `cs`, as Python `str.rfind` (-1 when absent). -/
def lastIdxInt (c : Char) (cs : List Char) : Int :=
  match cs.reverse.findIdx? (fun x => x == c) with
  | some k => (cs.length : Int) - 1 - k
  | none => -1

/-- `os.path.splitext(name)[1]` (POSIX rules: the extension starts at the
last dot, provided some non-dot character of the basename precedes it). -/
def pySplitextExt (name : String) : String :=
  let cs := name.data
  let si := lastIdxInt '/' cs
  let di := lastIdxInt '.' cs
  if di > si then
    let start := (si + 1).toNat
    let stop := di.toNat
    if ((cs.drop start).take (stop - start)).any (fun c => c != '.') then
      String.mk (cs.drop stop)
    else ""
  else ""

/-- `os.path.splitext(file.filename)[1].lower()`. -/
def fileExtLower (name : String) : String :=
  String.mk ((pySplitextExt name).data.map lowerAscii)

def allowedExts : List String := [".pdf", ".jpg", ".jpeg", ".png"]

/-- `EnhancedInvoiceProcessor.process_files`: sequential per-file loop; an
unsupported extension raises ValueError before any OCR work, caught by the
per-file except into an error result; otherwise the recognized text goes to
`process_invoice` and the filename is added to its result. -/
def process_files (now today : String) (db : DB) :
    List UFile → List FileResult × DB
  | [] => ([], db)
  | f :: rest =>
    let ext := fileExtLower f.filename
    if allowedExts.contains ext then
      let r := process_invoice now today db f.text
      let res : FileResult := ⟨r.1.status, f.filename, r.1.error, r.1.data⟩
      let tail := process_files now today r.2 rest
      (res :: tail.1, tail.2)
    else
      let res : FileResult :=
        ⟨"error", f.filename, some ("Unsupported file format: " ++ ext), none⟩
      let tail := process_files now today db rest
      (res :: tail.1, tail.2)

/-! ## Image conditioning (`ImageProcessor`, lines 29-108)

The page type and the cv2/PIL primitives are external collaborators (the
spec scopes image contents out); what the source owns is the control flow:
each method wraps its whole body in try/except and returns the input page
unchanged on any internal failure. -/

/-- The steps of the enhance try-block that follow the grayscale
conversion: blur+adaptive threshold, denoising, contrast boost, sharpening,
in sequence; any step may raise. -/
def enhanceRest {Page : Type}
    (threshold denoise contrast sharpen : Page → Except String Page)
    (image : Page) : Except String Page :=
  match threshold image with
  | .error e => .error e
  | .ok b =>
    match denoise b with
    | .error e => .error e
    | .ok c =>
      match contrast c with
      | .error e => .error e
      | .ok d => sharpen d

/-- `ImageProcessor.enhance_image` (lines 32-64).  The try-block first
REBINDS the local to the grayscale conversion when the page is not already
single-channel (lines 37-38), so the except-branch returns whatever the
local holds at failure time: the original page if the conversion itself
raised (or was skipped and an early step failed), but the CONVERTED page
when the conversion succeeded and a later step raised.  `isGray` models the
mode test of line 37, `convert` the conversion of line 38. -/
def enhance_image {Page : Type}
    (isGray : Page → Bool)
    (convert threshold denoise contrast sharpen : Page → Except String Page)
    (image : Page) : Page :=
  match (if isGray image then Except.ok image else convert image) with
  | .error _ => image
  | .ok image2 =>
    match enhanceRest threshold denoise contrast sharpen image2 with
    | .ok out => out
    | .error _ => image2

/-- The try-block of `deskew_image`: edge detection, probabilistic line
transform, then — only when lines were found — the angle computation and
rotation (`rotate` returns the page itself when the median angle is within
the 0.5 degree threshold). -/
def deskewBody {Page Edges Line : Type}
    (canny : Page → Except String Edges)
    (hough : Edges → Except String (Option (List Line)))
    (rotate : Page → List Line → Except String Page)
    (image : Page) : Except String Page := do
  let edges ← canny image
  let lines ← hough edges
  match lines with
  | some ls => if ls.length > 0 then rotate image ls else .ok image
  | none => .ok image

/-- `ImageProcessor.deskew_image` (lines 66-108). -/
def deskew_image {Page Edges Line : Type}
    (canny : Page → Except String Edges)
    (hough : Edges → Except String (Option (List Line)))
    (rotate : Page → List Line → Except String Page)
    (image : Page) : Page :=
  match deskewBody canny hough rotate image with
  | .ok out => out
  | .error _ => image

/-! ## Engine lemmas

Equation lemmas for `mtch` (definitional), then: a pattern that contains a
mandatory newline literal cannot match inside newline-free input.  This is
what makes the line-items cascade dead after whitespace collapsing. -/

theorem mtch_eq_zero (fl : ReFlags) (inp : List Char) (re : RE) (pos : Nat)
    (rest : List Char) (gs : GroupList) (k) :
    mtch fl inp 0 re pos rest gs k = none := rfl

theorem mtch_eq_eps (fl : ReFlags) (inp : List Char) (n pos : Nat)
    (rest : List Char) (gs : GroupList) (k) :
    mtch fl inp (n+1) RE.eps pos rest gs k = k pos rest gs := rfl

theorem mtch_eq_lit (fl : ReFlags) (inp : List Char) (c : Char) (n pos : Nat)
    (rest : List Char) (gs : GroupList) (k) :
    mtch fl inp (n+1) (RE.lit c) pos rest gs k =
      (match rest with
       | [] => none
       | x :: rs => if litMatch fl c x then k (pos + 1) rs gs else none) := rfl

theorem mtch_eq_cls (fl : ReFlags) (inp : List Char) (neg : Bool)
    (items : List ClsItem) (n pos : Nat) (rest : List Char) (gs : GroupList) (k) :
    mtch fl inp (n+1) (RE.cls neg items) pos rest gs k =
      (match rest with
       | [] => none
       | x :: rs => if clsMatch fl neg items x then k (pos + 1) rs gs else none) := rfl

theorem mtch_eq_dot (fl : ReFlags) (inp : List Char) (n pos : Nat)
    (rest : List Char) (gs : GroupList) (k) :
    mtch fl inp (n+1) RE.dot pos rest gs k =
      (match rest with
       | [] => none
       | x :: rs => if fl.dotall || x != '\n' then k (pos + 1) rs gs else none) := rfl

theorem mtch_eq_seq (fl : ReFlags) (inp : List Char) (a b : RE) (n pos : Nat)
    (rest : List Char) (gs : GroupList) (k) :
    mtch fl inp (n+1) (RE.seq a b) pos rest gs k =
      mtch fl inp n a pos rest gs (fun p r g2 => mtch fl inp n b p r g2 k) := rfl

theorem mtch_eq_alt (fl : ReFlags) (inp : List Char) (a b : RE) (n pos : Nat)
    (rest : List Char) (gs : GroupList) (k) :
    mtch fl inp (n+1) (RE.alt a b) pos rest gs k =
      (match mtch fl inp n a pos rest gs k with
       | some res => some res
       | none => mtch fl inp n b pos rest gs k) := rfl

theorem mtch_eq_repS (fl : ReFlags) (inp : List Char) (lo : Nat)
    (hi : Option Nat) (g : Bool) (a : RE) (n pos : Nat) (rest : List Char)
    (gs : GroupList) (k) :
    mtch fl inp (n+1) (RE.rep (lo+1) hi g a) pos rest gs k =
      mtch fl inp n a pos rest gs
        (fun p r g2 => mtch fl inp n (RE.rep lo (decOpt hi) g a) p r g2 k) := rfl

theorem mtch_eq_rep00 (fl : ReFlags) (inp : List Char) (g : Bool) (a : RE)
    (n pos : Nat) (rest : List Char) (gs : GroupList) (k) :
    mtch fl inp (n+1) (RE.rep 0 (some 0) g a) pos rest gs k = k pos rest gs := rfl

theorem mtch_eq_rep0N (fl : ReFlags) (inp : List Char) (g : Bool) (a : RE)
    (n pos : Nat) (rest : List Char) (gs : GroupList) (k) :
    mtch fl inp (n+1) (RE.rep 0 none g a) pos rest gs k =
      (if g then
        match mtch fl inp n a pos rest gs
            (fun p r g2 => mtch fl inp n (RE.rep 0 (decOpt none) g a) p r g2 k) with
        | some res => some res
        | none => k pos rest gs
      else
        match k pos rest gs with
        | some res => some res
        | none =>
          mtch fl inp n a pos rest gs
            (fun p r g2 => mtch fl inp n (RE.rep 0 (decOpt none) g a) p r g2 k)) := rfl

theorem mtch_eq_rep0SS (fl : ReFlags) (inp : List Char) (m : Nat) (g : Bool)
    (a : RE) (n pos : Nat) (rest : List Char) (gs : GroupList) (k) :
    mtch fl inp (n+1) (RE.rep 0 (some (m+1)) g a) pos rest gs k =
      (if g then
        match mtch fl inp n a pos rest gs
            (fun p r g2 =>
              mtch fl inp n (RE.rep 0 (decOpt (some (m+1))) g a) p r g2 k) with
        | some res => some res
        | none => k pos rest gs
      else
        match k pos rest gs with
        | some res => some res
        | none =>
          mtch fl inp n a pos rest gs
            (fun p r g2 =>
              mtch fl inp n (RE.rep 0 (decOpt (some (m+1))) g a) p r g2 k)) := rfl

theorem mtch_eq_grp (fl : ReFlags) (inp : List Char) (i : Nat) (a : RE)
    (n pos : Nat) (rest : List Char) (gs : GroupList) (k) :
    mtch fl inp (n+1) (RE.grp i a) pos rest gs k =
      mtch fl inp n a pos rest gs
        (fun p r g2 => k p r ((i, sliceStr inp pos p) :: g2)) := rfl

theorem mtch_eq_look (fl : ReFlags) (inp : List Char) (a : RE) (n pos : Nat)
    (rest : List Char) (gs : GroupList) (k) :
    mtch fl inp (n+1) (RE.look a) pos rest gs k =
      (match mtch fl inp n a pos rest gs (fun p _ g2 => some (p, g2)) with
       | some _ => k pos rest gs
       | none => none) := rfl

theorem mtch_eq_eos (fl : ReFlags) (inp : List Char) (n pos : Nat)
    (rest : List Char) (gs : GroupList) (k) :
    mtch fl inp (n+1) RE.eos pos rest gs k =
      (if rest == ([] : List Char) || rest == ['\n'] then k pos rest gs
       else none) := rfl

/-- A pattern syntactically guaranteed to consume a literal newline on every
successful match. -/
def requiresNl : RE → Bool
  | .lit c => c == '\n'
  | .seq a b => requiresNl a || requiresNl b
  | .alt a b => requiresNl a && requiresNl b
  | .rep lo _ _ a => decide (0 < lo) && requiresNl a
  | .grp _ a => requiresNl a
  | .look a => requiresNl a
  | _ => false

/-- If the remaining input is newline-free and the continuation rejects every
newline-free remainder, the matcher rejects (the matcher only ever shrinks
the remainder, so every continuation call sees newline-free input). -/
theorem mtch_none_nl (fl : ReFlags) (inp : List Char) :
    ∀ (fuel : Nat) (re : RE) (pos : Nat) (rest : List Char) (gs : GroupList)
      (k : Nat → List Char → GroupList → Option (Nat × GroupList)),
      '\n' ∉ rest →
      (∀ p r g, '\n' ∉ r → k p r g = none) →
      mtch fl inp fuel re pos rest gs k = none := by
  intro fuel
  induction fuel with
  | zero => intro re pos rest gs k _ _; rfl
  | succ n ih =>
    intro re pos rest gs k hrest hk
    cases re with
    | eps => exact hk pos rest gs hrest
    | lit c =>
      rw [mtch_eq_lit]
      cases rest with
      | nil => rfl
      | cons x rs =>
        have hrs : '\n' ∉ rs := fun hm => hrest (List.mem_cons_of_mem x hm)
        show (if litMatch fl c x = true then k (pos + 1) rs gs else none) = none
        rw [hk _ _ _ hrs]
        simp only [ite_self]
    | cls neg items =>
      rw [mtch_eq_cls]
      cases rest with
      | nil => rfl
      | cons x rs =>
        have hrs : '\n' ∉ rs := fun hm => hrest (List.mem_cons_of_mem x hm)
        show (if clsMatch fl neg items x = true then k (pos + 1) rs gs else none) = none
        rw [hk _ _ _ hrs]
        simp only [ite_self]
    | dot =>
      rw [mtch_eq_dot]
      cases rest with
      | nil => rfl
      | cons x rs =>
        have hrs : '\n' ∉ rs := fun hm => hrest (List.mem_cons_of_mem x hm)
        show (if (fl.dotall || x != '\n') = true then k (pos + 1) rs gs else none) = none
        rw [hk _ _ _ hrs]
        simp only [ite_self]
    | seq a b =>
      rw [mtch_eq_seq]
      exact ih a pos rest gs _ hrest (fun p r g hr => ih b p r g k hr hk)
    | alt a b =>
      rw [mtch_eq_alt, ih a pos rest gs k hrest hk,
          ih b pos rest gs k hrest hk]
    | rep lo hi g a =>
      cases lo with
      | succ l =>
        rw [mtch_eq_repS]
        exact ih a pos rest gs _ hrest (fun p r g2 hr => ih _ p r g2 k hr hk)
      | zero =>
        cases hi with
        | none =>
          rw [mtch_eq_rep0N]
          have hbody := ih a pos rest gs
            (fun p r g2 => mtch fl inp n (RE.rep 0 (decOpt none) g a) p r g2 k)
            hrest (fun p r g2 hr => ih _ p r g2 k hr hk)
          have hkk := hk pos rest gs hrest
          cases g <;> simp [hbody, hkk]
        | some m =>
          cases m with
          | zero => rw [mtch_eq_rep00]; exact hk pos rest gs hrest
          | succ m2 =>
            rw [mtch_eq_rep0SS]
            have hbody := ih a pos rest gs
              (fun p r g2 =>
                mtch fl inp n (RE.rep 0 (decOpt (some (m2+1))) g a) p r g2 k)
              hrest (fun p r g2 hr => ih _ p r g2 k hr hk)
            have hkk := hk pos rest gs hrest
            cases g <;> simp [hbody, hkk]
    | grp i a =>
      rw [mtch_eq_grp]
      exact ih a pos rest gs _ hrest (fun p r g2 hr => hk _ _ _ hr)
    | look a =>
      rw [mtch_eq_look]
      cases h : mtch fl inp n a pos rest gs (fun p _ g2 => some (p, g2)) with
      | some v => exact hk pos rest gs hrest
      | none => rfl
    | eos =>
      rw [mtch_eq_eos, hk pos rest gs hrest]
      simp only [ite_self]

/-- A pattern that requires a newline rejects newline-free input outright
(no IGNORECASE, which is how the items pattern is searched). -/
theorem mtch_requiresNl (fl : ReFlags) (inp : List Char)
    (hic : fl.icase = false) :
    ∀ (fuel : Nat) (re : RE) (pos : Nat) (rest : List Char) (gs : GroupList)
      (k : Nat → List Char → GroupList → Option (Nat × GroupList)),
      requiresNl re = true →
      '\n' ∉ rest →
      mtch fl inp fuel re pos rest gs k = none := by
  intro fuel
  induction fuel with
  | zero => intro re pos rest gs k _ _; rfl
  | succ n ih =>
    intro re pos rest gs k hre hrest
    cases re with
    | eps => simp [requiresNl] at hre
    | lit c =>
      have hc : c = '\n' := by simpa [requiresNl] using hre
      subst hc
      rw [mtch_eq_lit]
      cases rest with
      | nil => rfl
      | cons x rs =>
        have hx : x ≠ '\n' := fun he => hrest (he ▸ List.mem_cons_self x rs)
        have hlm : litMatch fl '\n' x = false := by
          simp only [litMatch, hic, if_false, Bool.ite_eq_false_distrib]
          simp only [beq_eq_false_iff_ne, ne_eq]
          exact fun he => hx he.symm
        simp [hlm]
    | cls neg items => simp [requiresNl] at hre
    | dot => simp [requiresNl] at hre
    | seq a b =>
      rw [mtch_eq_seq]
      simp only [requiresNl, Bool.or_eq_true] at hre
      cases hre with
      | inl ha => exact ih a pos rest gs _ ha hrest
      | inr hb =>
        exact mtch_none_nl fl inp n a pos rest gs _ hrest
          (fun p r g hr => ih b p r g k hb hr)
    | alt a b =>
      simp only [requiresNl, Bool.and_eq_true] at hre
      rw [mtch_eq_alt, ih a pos rest gs k hre.1 hrest,
          ih b pos rest gs k hre.2 hrest]
    | rep lo hi g a =>
      simp only [requiresNl, Bool.and_eq_true, decide_eq_true_eq] at hre
      obtain ⟨hlo, ha⟩ := hre
      cases lo with
      | zero => omega
      | succ l =>
        rw [mtch_eq_repS]
        exact ih a pos rest gs _ ha hrest
    | grp i a =>
      rw [mtch_eq_grp]
      simp only [requiresNl] at hre
      exact ih a pos rest gs _ hre hrest
    | look a =>
      rw [mtch_eq_look]
      simp only [requiresNl] at hre
      rw [ih a pos rest gs _ hre hrest]
    | eos => simp [requiresNl] at hre

/-- Scanning from any suffix of newline-free input fails for a
newline-requiring pattern. -/
theorem searchFrom_requiresNl (fl : ReFlags) (re : RE) (inp : List Char)
    (fuel : Nat) (hic : fl.icase = false) (hre : requiresNl re = true) :
    ∀ (rest : List Char) (pos : Nat), '\n' ∉ rest →
      searchFrom fl re inp fuel pos rest = none := by
  intro rest
  induction rest with
  | nil =>
    intro pos _
    rw [searchFrom, mtch_requiresNl fl inp hic fuel re pos [] [] _ hre
      (by simp)]
  | cons x rs ihr =>
    intro pos hrest
    have hrs : '\n' ∉ rs := fun hm => hrest (List.mem_cons_of_mem x hm)
    rw [searchFrom, mtch_requiresNl fl inp hic fuel re pos (x :: rs) [] _ hre
      hrest]
    exact ihr (pos + 1) hrs

theorem findIterAux_requiresNl (fl : ReFlags) (re : RE) (inp : List Char)
    (fuel : Nat) (hic : fl.icase = false) (hre : requiresNl re = true) :
    ∀ (n pos : Nat) (rest : List Char), '\n' ∉ rest →
      findIterAux fl re inp fuel n pos rest = [] := by
  intro n
  cases n with
  | zero => intro pos rest _; rfl
  | succ m =>
    intro pos rest hrest
    rw [findIterAux, searchFrom_requiresNl fl re inp fuel hic hre rest pos hrest]

/-! ## Helper lemmas about normalization, items, and state deltas -/

theorem collapseWs_no_nl : ∀ (b : Bool) (cs : List Char), '\n' ∉ collapseWs b cs := by
  intro b cs
  induction cs generalizing b with
  | nil => show '\n' ∉ ([] : List Char); simp
  | cons c rest ih =>
    by_cases h : isPySpace c = true
    · simp only [collapseWs, h, if_true]
      cases b with
      | true => exact ih true
      | false =>
        simp only [Bool.false_eq_true, if_false, List.mem_cons]
        rintro (he | hm)
        · exact absurd he (by decide)
        · exact ih true hm
    · simp only [collapseWs, h, Bool.false_eq_true, if_false, List.mem_cons]
      rintro (he | hm)
      · exact h (he ▸ (by decide : isPySpace '\n' = true))
      · exact ih false hm

theorem normalizeText_no_nl (s : String) : '\n' ∉ (normalizeText s).data :=
  collapseWs_no_nl false (pyStripList s.data)

theorem extractItems_nil (inp : List Char) (h : '\n' ∉ inp) :
    extractItems inp = [] := by
  unfold extractItems reFindIter
  rw [findIterAux_requiresNl flagsNone itemPattern inp (bigFuel inp) rfl
    (by decide) (inp.length + 1) 0 inp h]
  rfl

/-- Everything the router persists goes through `extract_invoice_details`,
whose items value is always the empty list once whitespace is collapsed. -/
theorem extract_details_items (text : String) (d : InvoiceData)
    (h : extract_invoice_details text = .ok d) : d.items = "[]" := by
  unfold extract_invoice_details at h
  cases htax : extractTaxFrom taxPatterns (normalizeText text).data with
  | error e => simp [htax] at h
  | ok p =>
    cases hd : extractDiscountFrom discountPatterns (normalizeText text).data with
    | error e => obtain ⟨p1, p2⟩ := p; simp [htax, hd] at h
    | ok q =>
      obtain ⟨p1, p2⟩ := p
      obtain ⟨q1, q2⟩ := q
      simp only [htax, hd, Except.ok.injEq] at h
      rw [← h]
      show pyStrItems (extractItems ((normalizeText text).data)) = "[]"
      rw [extractItems_nil ((normalizeText text).data) (normalizeText_no_nl text)]
      rfl

/-- The client-resolution step never touches the two invoice stores. -/
theorem handle_client_stores (db : DB) (c : ClientData) :
    (handle_client_processing db c).2.invoices = db.invoices ∧
    (handle_client_processing db c).2.invalid_invoices = db.invalid_invoices := by
  unfold handle_client_processing create_client
  cases hn : c.name
  all_goals simp only [hn]
  all_goals repeat' split
  all_goals simp_all

theorem save_invalid_stores (db : DB) (d : Option InvoiceData) (msg : String) :
    (save_invalid_invoice db d msg).invoices = db.invoices ∧
    ∃ row, (save_invalid_invoice db d msg).invalid_invoices =
      db.invalid_invoices ++ [row] ∧ row.error_message = msg ∧
      row.items = (match d with
                   | none => "[]"
                   | some dd => jsonStringDumps dd.items) := by
  unfold save_invalid_invoice
  cases d <;> simp

theorem insert_ok_stores (db : DB) (row : InvoiceRow) (db2 : DB)
    (h : insertInvoiceRow db row = .ok db2) :
    db2.invoices = db.invoices ++ [row] ∧
    db2.invalid_invoices = db.invalid_invoices := by
  unfold insertInvoiceRow at h
  by_cases hdup : db.invoices.any (fun r => r.id == row.id) = true
  · rw [if_pos hdup] at h; cases h
  · rw [if_neg hdup] at h; cases h; exact ⟨rfl, rfl⟩

/-- C1: for every text that reaches `process_invoice`, processing adds
exactly one persisted record, in exactly one of the two stores — never
both, never neither. -/
theorem c1_exactly_one_store (now today : String) (db : DB) (text : String) :
    (process_invoice now today db text).2.invoices.length +
      (process_invoice now today db text).2.invalid_invoices.length =
      db.invoices.length + db.invalid_invoices.length + 1 ∧
    (((process_invoice now today db text).2.invoices.length =
        db.invoices.length + 1 ∧
      (process_invoice now today db text).2.invalid_invoices =
        db.invalid_invoices) ∨
     ((process_invoice now today db text).2.invoices = db.invoices ∧
      (process_invoice now today db text).2.invalid_invoices.length =
        db.invalid_invoices.length + 1)) := by
  cases hx : extract_invoice_details text with
  | error e =>
    obtain ⟨hinv, row, hrow, _⟩ := save_invalid_stores db none e
    have hp2 : (process_invoice now today db text).2 =
        save_invalid_invoice db none e := by
      simp only [process_invoice, hx]
    rw [hp2, hinv, hrow]
    refine ⟨?_, Or.inr ⟨rfl, ?_⟩⟩ <;>
      simp only [List.length_append, List.length_cons, List.length_nil] <;>
      omega
  | ok d =>
    obtain ⟨hci, hcv⟩ := handle_client_stores db d.client
    by_cases hcur : d.currency = none
    · obtain ⟨hinv, row, hrow, _⟩ :=
        save_invalid_stores (handle_client_processing db d.client).2
          (some d) "Missing required field: currency"
      have hp2 : (process_invoice now today db text).2 =
          save_invalid_invoice (handle_client_processing db d.client).2
            (some d) "Missing required field: currency" := by
        simp only [process_invoice, hx]
        rw [if_pos hcur]
      rw [hp2, hinv, hrow, hci, hcv]
      refine ⟨?_, Or.inr ⟨rfl, ?_⟩⟩ <;>
        simp only [List.length_append, List.length_cons, List.length_nil] <;>
        omega
    · simp only [process_invoice, hx]
      rw [if_neg hcur]
      split
      · next db2 hins =>
        obtain ⟨h1, h2⟩ :=
          insert_ok_stores (handle_client_processing db d.client).2 _ db2 hins
        rw [hci] at h1
        rw [hcv] at h2
        refine ⟨?_, Or.inl ⟨?_, ?_⟩⟩
        · show db2.invoices.length + db2.invalid_invoices.length = _
          rw [h1, h2]
          simp only [List.length_append, List.length_cons, List.length_nil]
          omega
        · show db2.invoices.length = _
          rw [h1]
          simp only [List.length_append, List.length_cons, List.length_nil]
        · show db2.invalid_invoices = _
          exact h2
      · next err hins =>
        obtain ⟨hinv, row, hrow, _⟩ :=
          save_invalid_stores (handle_client_processing db d.client).2
            (some _) ("Failed to save invoice: " ++ err)
        refine ⟨?_, Or.inr ⟨?_, ?_⟩⟩
        · show (save_invalid_invoice _ _ _).invoices.length +
            (save_invalid_invoice _ _ _).invalid_invoices.length = _
          rw [hinv, hrow, hci, hcv]
          simp only [List.length_append, List.length_cons, List.length_nil]
          omega
        · show (save_invalid_invoice _ _ _).invoices = _
          rw [hinv, hci]
        · show (save_invalid_invoice _ _ _).invalid_invoices.length = _
          rw [hrow, hcv]
          simp only [List.length_append, List.length_cons, List.length_nil]

/-! ## The currency gate (claim C2) -/

/-- The extraction always sets currency to USD or EUR (line 490-493). -/
theorem extract_details_currency (text : String) (d : InvoiceData)
    (h : extract_invoice_details text = .ok d) :
    d.currency = some "USD" ∨ d.currency = some "EUR" := by
  unfold extract_invoice_details at h
  cases htax : extractTaxFrom taxPatterns (normalizeText text).data with
  | error e => simp [htax] at h
  | ok p =>
    cases hd : extractDiscountFrom discountPatterns (normalizeText text).data with
    | error e => obtain ⟨p1, p2⟩ := p; simp [htax, hd] at h
    | ok q =>
      obtain ⟨p1, p2⟩ := p
      obtain ⟨q1, q2⟩ := q
      simp only [htax, hd, Except.ok.injEq] at h
      rw [← h]
      by_cases hc :
        (reSearch flagsNone currencyPattern ((normalizeText text).data)).isSome = true
      · left
        show some (if (reSearch flagsNone currencyPattern
          ((normalizeText text).data)).isSome = true then "USD" else "EUR") = _
        rw [if_pos hc]
      · right
        show some (if (reSearch flagsNone currencyPattern
          ((normalizeText text).data)).isSome = true then "USD" else "EUR") = _
        rw [if_neg hc]

theorem append_ne_currency_msg (a s : String) (x : Char)
    (ha : a.data.head? = some x) (hx : x ≠ 'M') :
    a ++ s ≠ "Missing required field: currency" := by
  intro h
  have h2 : (a ++ s).data.head? = some 'M' := by rw [h]; rfl
  rw [String.data_append] at h2
  cases hd : a.data with
  | nil => rw [hd] at ha; cases ha
  | cons y t =>
    rw [hd] at ha h2
    simp only [List.cons_append, List.head?_cons, Option.some.injEq] at ha h2
    rw [← ha] at hx
    exact hx h2

theorem pyFloatArg_error_msg (g : Option String) (e : String)
    (h : pyFloatArg g = .error e) :
    e ≠ "Missing required field: currency" := by
  unfold pyFloatArg at h
  split at h
  · cases h; decide
  · rename_i s
    split at h
    · cases h
    · cases h
      exact append_ne_currency_msg "could not convert string to float: " s
        'c' rfl (by decide)

theorem pyGroupStrict_error_msg (p : RE) (gs : GroupList) (i : Nat) (e : String)
    (h : pyGroupStrict p gs i = .error e) :
    e ≠ "Missing required field: currency" := by
  unfold pyGroupStrict at h
  by_cases hgt : i > reNumGroups p
  · rw [if_pos hgt] at h; cases h; decide
  · rw [if_neg hgt] at h; cases h

theorem extractTaxFrom_error_msg :
    ∀ (pats : List RE) (inp : List Char) (e : String),
      extractTaxFrom pats inp = .error e →
      e ≠ "Missing required field: currency" := by
  intro pats
  induction pats with
  | nil => intro inp e h; cases h
  | cons p rest ih =>
    intro inp e h
    rw [extractTaxFrom] at h
    split at h
    · exact ih inp e h
    · split at h
      · split at h
        · rename_i h1; cases h; exact pyFloatArg_error_msg _ _ h1
        · split at h
          · rename_i h2; cases h; exact pyFloatArg_error_msg _ _ h2
          · cases h
      · split at h
        · rename_i h1; cases h; exact pyFloatArg_error_msg _ _ h1
        · cases h

theorem extractDiscountFrom_error_msg :
    ∀ (pats : List RE) (inp : List Char) (e : String),
      extractDiscountFrom pats inp = .error e →
      e ≠ "Missing required field: currency" := by
  intro pats
  induction pats with
  | nil => intro inp e h; cases h
  | cons p rest ih =>
    intro inp e h
    rw [extractDiscountFrom] at h
    split at h
    · exact ih inp e h
    · split at h
      · rename_i h1; cases h; exact pyGroupStrict_error_msg _ _ _ _ h1
      · split at h
        · rename_i h2; cases h; exact pyFloatArg_error_msg _ _ h2
        · split at h
          · rename_i h3; cases h; exact pyGroupStrict_error_msg _ _ _ _ h3
          · split at h
            · rename_i h4; cases h; exact pyFloatArg_error_msg _ _ h4
            · cases h

theorem extract_details_error_msg (text : String) (e : String)
    (h : extract_invoice_details text = .error e) :
    e ≠ "Missing required field: currency" := by
  unfold extract_invoice_details at h
  cases htax : extractTaxFrom taxPatterns (normalizeText text).data with
  | error e1 =>
    simp only [htax] at h
    cases h
    exact extractTaxFrom_error_msg _ _ _ htax
  | ok p =>
    obtain ⟨p1, p2⟩ := p
    cases hd : extractDiscountFrom discountPatterns (normalizeText text).data with
    | error e2 =>
      simp only [htax, hd] at h
      cases h
      exact extractDiscountFrom_error_msg _ _ _ hd
    | ok q => obtain ⟨q1, q2⟩ := q; simp [htax, hd] at h

/-- C2: the currency-missing validation branch of the router is
unreachable: extraction always defaults the currency (EUR, or USD when a
dollar sign or USD token occurs), so no row ever lands in the invalid
store with the message "Missing required field: currency". -/
theorem c2_currency_gate_unreachable (now today : String) (db : DB)
    (text : String) :
    ((extract_invoice_details text).toOption.all
      (fun d => d.currency == some "USD" || d.currency == some "EUR")) = true ∧
    ∃ newRows,
      (process_invoice now today db text).2.invalid_invoices =
        db.invalid_invoices ++ newRows ∧
      (newRows.all
        (fun r => r.error_message != "Missing required field: currency")) = true := by
  cases hx : extract_invoice_details text with
  | error e =>
    have hmsg := extract_details_error_msg text e hx
    obtain ⟨hinv, row, hrow, hrmsg, _⟩ := save_invalid_stores db none e
    constructor
    · simp [Except.toOption]
    · refine ⟨[row], ?_, ?_⟩
      · have hp2 : (process_invoice now today db text).2 =
            save_invalid_invoice db none e := by
          simp only [process_invoice, hx]
        rw [hp2, hrow]
      · simp only [List.all_cons, List.all_nil, Bool.and_true, bne_iff_ne,
          ne_eq]
        rw [hrmsg]
        exact hmsg
  | ok d =>
    have hcd := extract_details_currency text d hx
    constructor
    · simp only [hx, Except.toOption, Option.all_some]
      cases hcd with
      | inl h => simp [h]
      | inr h => simp [h]
    · by_cases hcur : d.currency = none
      · rcases hcd with h | h <;> rw [h] at hcur <;> cases hcur
      · simp only [process_invoice, hx]
        rw [if_neg hcur]
        obtain ⟨hci, hcv⟩ := handle_client_stores db d.client
        split
        · next db2 hins =>
          obtain ⟨h1, h2⟩ :=
            insert_ok_stores (handle_client_processing db d.client).2 _ db2 hins
          refine ⟨[], ?_, rfl⟩
          show db2.invalid_invoices = _
          rw [h2, hcv, List.append_nil]
        · next err hins =>
          obtain ⟨hinv, row, hrow, hrmsg, _⟩ :=
            save_invalid_stores (handle_client_processing db d.client).2
              (some _) ("Failed to save invoice: " ++ err)
          refine ⟨[row], ?_, ?_⟩
          · show (save_invalid_invoice _ _ _).invalid_invoices = _
            rw [hrow, hcv]
          · simp only [List.all_cons, List.all_nil, Bool.and_true,
              bne_iff_ne, ne_eq]
            rw [hrmsg]
            exact append_ne_currency_msg "Failed to save invoice: " err 'F'
              rfl (by decide)

/-- C10: the line-items extraction is dead code: the text is
whitespace-collapsed before matching while the item pattern demands literal
newlines, so the items list is always empty and every persisted record
stores an empty items list (`"[]"`, JSON-serialized to `"\"[]\""` when the
row carries the stringified dict value). -/
theorem c10_items_always_empty (now today : String) (db : DB) (text : String) :
    extractItems ((normalizeText text).data) = [] ∧
    ((extract_invoice_details text).toOption.all
      (fun d => d.items == "[]")) = true ∧
    ∃ nv ni,
      (process_invoice now today db text).2.invoices = db.invoices ++ nv ∧
      (process_invoice now today db text).2.invalid_invoices =
        db.invalid_invoices ++ ni ∧
      (nv.all (fun r => r.items == jsonStringDumps "[]")) = true ∧
      (ni.all (fun r => r.items == "[]" ||
        r.items == jsonStringDumps "[]")) = true := by
  refine ⟨extractItems_nil _ (normalizeText_no_nl text), ?_, ?_⟩
  · cases hx : extract_invoice_details text with
    | error e => simp [Except.toOption]
    | ok d =>
      have hit := extract_details_items text d hx
      simp [Except.toOption, hit]
  · cases hx : extract_invoice_details text with
    | error e =>
      obtain ⟨hinv, row, hrow, _, hritems⟩ := save_invalid_stores db none e
      have hp2 : (process_invoice now today db text).2 =
          save_invalid_invoice db none e := by
        simp only [process_invoice, hx]
      refine ⟨[], [row], ?_, ?_, rfl, ?_⟩
      · rw [hp2, hinv, List.append_nil]
      · rw [hp2, hrow]
      · simp only [List.all_cons, List.all_nil, Bool.and_true]
        rw [hritems]
        simp
    | ok d =>
      have hit := extract_details_items text d hx
      obtain ⟨hci, hcv⟩ := handle_client_stores db d.client
      by_cases hcur : d.currency = none
      · obtain ⟨hinv, row, hrow, _, hritems⟩ :=
          save_invalid_stores (handle_client_processing db d.client).2
            (some d) "Missing required field: currency"
        have hp2 : (process_invoice now today db text).2 =
            save_invalid_invoice (handle_client_processing db d.client).2
              (some d) "Missing required field: currency" := by
          simp only [process_invoice, hx]
          rw [if_pos hcur]
        refine ⟨[], [row], ?_, ?_, rfl, ?_⟩
        · rw [hp2, hinv, hci, List.append_nil]
        · rw [hp2, hrow, hcv]
        · simp only [List.all_cons, List.all_nil, Bool.and_true]
          rw [hritems]
          simp [hit]
      · simp only [process_invoice, hx]
        rw [if_neg hcur]
        split
        · next db2 hins =>
          obtain ⟨h1, h2⟩ :=
            insert_ok_stores (handle_client_processing db d.client).2 _ db2 hins
          rw [hci] at h1
          rw [hcv] at h2
          refine ⟨_, [], h1, ?_, ?_, rfl⟩
          · show db2.invalid_invoices = _
            rw [h2, List.append_nil]
          · simp only [List.all_cons, List.all_nil, Bool.and_true]
            simp [hit]
        · next err hins =>
          obtain ⟨hinv, row, hrow, _, hritems⟩ :=
            save_invalid_stores (handle_client_processing db d.client).2
              (some _) ("Failed to save invoice: " ++ err)
          refine ⟨[], [row], ?_, ?_, rfl, ?_⟩
          · show (save_invalid_invoice _ _ _).invoices = _
            rw [hinv, hci, List.append_nil]
          · show (save_invalid_invoice _ _ _).invalid_invoices = _
            rw [hrow, hcv]
          · simp only [List.all_cons, List.all_nil, Bool.and_true]
            rw [hritems]
            simp [hit]

/-- C5 (counterexample): the claim quantifies over every invoice_number
string, but for the empty string the truthiness guard of lines 594-595
falls back to hashing the processing timestamp, so two runs yield two
different persisted ids. -/
theorem c5_empty_number_counterexample :
    invoiceIdFor "2024-01-01 00:00:00.000001" (some "") ≠
      invoiceIdFor "2024-01-02 00:00:00.000002" (some "") := by decide

/-- C5 (amended): for every non-empty invoice_number string, the persisted
id is the MD5 of that string alone, identical across any two processing
runs whatever their timestamps. -/
theorem c5_id_deterministic (now1 now2 : String) (s : String) (h : s ≠ "") :
    invoiceIdFor now1 (some s) = invoiceIdFor now2 (some s) ∧
    invoiceIdFor now1 (some s) = md5Hex s := by
  have he : s.isEmpty = false := by
    cases hse : s.isEmpty
    · rfl
    · exact absurd ((String.isEmpty_iff s).mp hse) h
  simp [invoiceIdFor, pyTruthy, he]

theorem c5_id_deterministic_witness :
    "42" ≠ "" ∧
    invoiceIdFor "2024-01-01 00:00:00.000001" (some "42") =
      invoiceIdFor "2024-01-02 00:00:00.000002" (some "42") :=
  ⟨by decide,
   (c5_id_deterministic "2024-01-01 00:00:00.000001"
     "2024-01-02 00:00:00.000002" "42" (by decide)).1⟩

/-- C7: `clean_amount` strips every character except digits, comma, dot and
minus; with both separators present the rightmost one is the decimal point
and the other is discarded; a lone comma is the decimal separator; in
particular "1234,56", "1.234,56" and "1,234.56" all normalize to 1234.56. -/
theorem c7_clean_amount_heuristic :
    (∀ s : String, (cleanAmountStrip s).all
      (fun c => isPyDigit c || c == ',' || c == '.' || c == '-') = true) ∧
    clean_amount "1234,56" = some (1234.56 : Rat) ∧
    clean_amount "1.234,56" = some (1234.56 : Rat) ∧
    clean_amount "1,234.56" = some (1234.56 : Rat) := by
  have hlit : (1234.56 : Rat) = mkRat 123456 100 := by norm_num
  refine ⟨?_, by rw [hlit]; decide, by rw [hlit]; decide, by rw [hlit]; decide⟩
  intro s
  simp only [cleanAmountStrip, List.all_eq_true]
  intro c hc
  exact (List.mem_filter.mp hc).2

/-- Batch processing decomposes over list append: the tail of a batch is
processed from the state the front leaves behind. -/
theorem process_files_append (now today : String) (db : DB)
    (xs ys : List UFile) :
    process_files now today db (xs ++ ys) =
      ((process_files now today db xs).1 ++
        (process_files now today (process_files now today db xs).2 ys).1,
       (process_files now today (process_files now today db xs).2 ys).2) := by
  induction xs generalizing db with
  | nil => simp [process_files]
  | cons g xs ih =>
    simp only [List.cons_append, process_files]
    by_cases hg : allowedExts.contains (fileExtLower g.filename) = true
    · simp only [hg, if_true, List.append_eq, ih, List.cons_append]
    · simp only [hg, Bool.false_eq_true, if_false, List.append_eq, ih,
        List.cons_append]

/-- C6: a file whose lower-cased extension is outside the allow-list yields
a per-file error result carrying the filename and an error message, causes
no state change at all (neither store receives a row, no OCR text is
consulted), and the remaining files of the batch are processed exactly as
if the rejected file were absent. -/
theorem c6_unsupported_extension (now today : String) (db : DB)
    (pre : List UFile) (f : UFile) (rest : List UFile)
    (h : allowedExts.contains (fileExtLower f.filename) = false) :
    (process_files now today db (pre ++ f :: rest)).1 =
      (process_files now today db pre).1 ++
        (⟨"error", f.filename,
          some ("Unsupported file format: " ++ fileExtLower f.filename),
          none⟩ : FileResult) ::
        (process_files now today (process_files now today db pre).2 rest).1 ∧
    (process_files now today db (pre ++ f :: rest)).2 =
      (process_files now today (process_files now today db pre).2 rest).2 := by
  have happ := process_files_append now today db pre (f :: rest)
  have hstep :
      process_files now today (process_files now today db pre).2 (f :: rest) =
        ((⟨"error", f.filename,
           some ("Unsupported file format: " ++ fileExtLower f.filename),
           none⟩ : FileResult) ::
          (process_files now today (process_files now today db pre).2 rest).1,
         (process_files now today (process_files now today db pre).2 rest).2) := by
    simp only [process_files, h, Bool.false_eq_true, if_false]
  rw [happ, hstep]
  exact ⟨rfl, rfl⟩

theorem c6_unsupported_extension_witness :
    allowedExts.contains (fileExtLower "scan.txt") = false ∧
    (process_files "2024-01-01 00:00:00" "2024-01-01" emptyDB
        ([] ++ (⟨"scan.txt", "ignored"⟩ : UFile) ::
          [(⟨"ok.pdf", "PO Number:9"⟩ : UFile)])).1 =
      (process_files "2024-01-01 00:00:00" "2024-01-01" emptyDB []).1 ++
        (⟨"error", "scan.txt",
          some ("Unsupported file format: " ++ fileExtLower "scan.txt"),
          none⟩ : FileResult) ::
        (process_files "2024-01-01 00:00:00" "2024-01-01"
          (process_files "2024-01-01 00:00:00" "2024-01-01" emptyDB []).2
          [(⟨"ok.pdf", "PO Number:9"⟩ : UFile)]).1 :=
  ⟨by decide,
   (c6_unsupported_extension "2024-01-01 00:00:00" "2024-01-01" emptyDB []
     ⟨"scan.txt", "ignored"⟩ [⟨"ok.pdf", "PO Number:9"⟩] (by decide)).1⟩

/-- C9 (counterexample): the enhance try-block rebinds its local to the
grayscale conversion, so when the conversion succeeds (and changes the
page) and a later step fails, the except-branch returns the converted page,
not the input unchanged: with a conversion mapping page 7 to page 99 and a
failing threshold step, enhancement of page 7 returns page 99. -/
theorem c9_enhance_rebind_counterexample :
    enhance_image (fun _ : Nat => false)
      (fun _ => (Except.ok 99 : Except String Nat))
      (fun _ => Except.error "cv2 failure") (fun a => Except.ok a)
      (fun a => Except.ok a) (fun a => Except.ok a) 7 = 99 ∧
    enhance_image (fun _ : Nat => false)
      (fun _ => (Except.ok 99 : Except String Nat))
      (fun _ => Except.error "cv2 failure") (fun a => Except.ok a)
      (fun a => Except.ok a) (fun a => Except.ok a) 7 ≠ 7 := by
  exact ⟨rfl, by decide⟩

/-- C9 (amended): image conditioning is best-effort and total: both methods
are total functions and never abort the pipeline.  `deskew_image` returns
its input page unchanged on any internal failure, and so does
`enhance_image` when the page is already single-channel or when the
grayscale conversion itself fails; but when the conversion succeeds and a
later enhancement step fails, `enhance_image` returns the
grayscale-converted page (the rebound local), not the original input. -/
theorem c9_conditioning_best_effort :
    ∀ (Page Edges Line : Type)
      (isGray : Page → Bool)
      (convert threshold denoise contrast sharpen : Page → Except String Page)
      (canny : Page → Except String Edges)
      (hough : Edges → Except String (Option (List Line)))
      (rotate : Page → List Line → Except String Page)
      (image g : Page) (e1 e2 e3 e4 : String),
      (isGray image = false → convert image = .error e1 →
        enhance_image isGray convert threshold denoise contrast sharpen
          image = image) ∧
      (isGray image = true →
        enhanceRest threshold denoise contrast sharpen image = .error e2 →
        enhance_image isGray convert threshold denoise contrast sharpen
          image = image) ∧
      (isGray image = false → convert image = .ok g →
        enhanceRest threshold denoise contrast sharpen g = .error e3 →
        enhance_image isGray convert threshold denoise contrast sharpen
          image = g) ∧
      (deskewBody canny hough rotate image = .error e4 →
        deskew_image canny hough rotate image = image) := by
  intro Page Edges Line isGray convert threshold denoise contrast sharpen
    canny hough rotate image g e1 e2 e3 e4
  refine ⟨?_, ?_, ?_, ?_⟩
  · intro hg hc; simp [enhance_image, hg, hc]
  · intro hg hr; simp [enhance_image, hg, hr]
  · intro hg hc hr; simp [enhance_image, hg, hc, hr]
  · intro h; simp [deskew_image, h]

theorem c9_conditioning_best_effort_witness :
    enhance_image (fun _ : Nat => false)
      (fun _ => (Except.error "cv2 failure" : Except String Nat))
      (fun a => Except.ok a) (fun a => Except.ok a) (fun a => Except.ok a)
      (fun a => Except.ok a) 7 = 7 ∧
    enhance_image (fun _ : Nat => true)
      (fun a => (Except.ok a : Except String Nat))
      (fun _ => Except.error "cv2 failure") (fun a => Except.ok a)
      (fun a => Except.ok a) (fun a => Except.ok a) 7 = 7 ∧
    enhance_image (fun _ : Nat => false)
      (fun _ => (Except.ok 99 : Except String Nat))
      (fun _ => Except.error "cv2 failure") (fun a => Except.ok a)
      (fun a => Except.ok a) (fun a => Except.ok a) 7 = 99 ∧
    deskew_image (fun _ : Nat => (Except.error "cv2 failure" : Except String Nat))
      (fun a => Except.ok (some [a])) (fun a _ => Except.ok a) 7 = 7 := by
  have h1 := c9_conditioning_best_effort Nat Nat Nat (fun _ => false)
    (fun _ => Except.error "cv2 failure") (fun a => Except.ok a)
    (fun a => Except.ok a) (fun a => Except.ok a) (fun a => Except.ok a)
    (fun _ => Except.error "cv2 failure") (fun a => Except.ok (some [a]))
    (fun a _ => Except.ok a) 7 7 "cv2 failure" "x" "x" "cv2 failure"
  have h2 := c9_conditioning_best_effort Nat Nat Nat (fun _ => true)
    (fun a => Except.ok a) (fun _ => Except.error "cv2 failure")
    (fun a => Except.ok a) (fun a => Except.ok a) (fun a => Except.ok a)
    (fun _ => Except.error "cv2 failure") (fun a => Except.ok (some [a]))
    (fun a _ => Except.ok a) 7 7 "x" "cv2 failure" "x" "x"
  have h3 := c9_conditioning_best_effort Nat Nat Nat (fun _ => false)
    (fun _ => Except.ok 99) (fun _ => Except.error "cv2 failure")
    (fun a => Except.ok a) (fun a => Except.ok a) (fun a => Except.ok a)
    (fun _ => Except.error "cv2 failure") (fun a => Except.ok (some [a]))
    (fun a _ => Except.ok a) 7 99 "x" "x" "cv2 failure" "x"
  exact ⟨h1.1 rfl rfl, h2.2.1 rfl rfl, h3.2.2.1 rfl rfl rfl, h1.2.2.2 rfl⟩

/-! ## Client resolution (claim C4) -/

theorem handle_email_hit (db : DB) (c : ClientData) (e : String) (cl : Client)
    (he : c.email = some e) (hie : e.isEmpty = false)
    (hcl : get_client_by_email db e = some cl) :
    handle_client_processing db c = (cl.id, db) := by
  unfold handle_client_processing
  simp only [he, pyTruthy, hie, Bool.not_false, if_true, Option.getD_some, hcl]

theorem handle_email_miss_create (db : DB) (c : ClientData) (e : String)
    (nm : String)
    (he : c.email = some e) (hie : e.isEmpty = false)
    (hmiss : get_client_by_email db e = none)
    (hph : ∀ p, c.phone = some p → p.isEmpty = false →
      get_client_by_phone db p = none)
    (hname : c.name = some nm) :
    handle_client_processing db c = (uuidFor db.uuidCounter,
      { db with
        clients := db.clients ++
          [⟨uuidFor db.uuidCounter, nm, c.email, c.phone, c.address⟩],
        uuidCounter := db.uuidCounter + 1 }) := by
  unfold handle_client_processing
  simp only [he, pyTruthy, hie, Bool.not_false, if_true, Option.getD_some,
    hmiss]
  have hphone :
      (if (match c.phone with | none => false | some s => !s.isEmpty) = true
       then get_client_by_phone db (c.phone.getD "") else none) = none := by
    cases hp : c.phone with
    | none => simp
    | some p =>
      cases hpe : p.isEmpty with
      | true => simp [hpe]
      | false => simp [hpe, Option.getD_some, hph p hp hpe]
  rw [hphone]
  unfold create_client
  rw [hname]

/-- C4 (counterexample): the resolver falls back to a phone lookup whenever
the email lookup misses, so two sequential resolutions with the same
non-null email can return different ids and create a row on the second
call: here the first candidate shares a phone with an existing client of a
different email and resolves to it, while the second (no phone) creates a
fresh identity. -/
theorem c4_counterexample :
    (handle_client_processing
        (handle_client_processing
          ⟨[⟨"X-id", "Xavier", some "x@x.com", some "555", none⟩], [], [], 0⟩
          ⟨some "Acme", some "a@a.com", some "555", none⟩).2
        ⟨some "Acme", some "a@a.com", none, none⟩).1 ≠
      (handle_client_processing
        ⟨[⟨"X-id", "Xavier", some "x@x.com", some "555", none⟩], [], [], 0⟩
        ⟨some "Acme", some "a@a.com", some "555", none⟩).1 ∧
    (handle_client_processing
        (handle_client_processing
          ⟨[⟨"X-id", "Xavier", some "x@x.com", some "555", none⟩], [], [], 0⟩
          ⟨some "Acme", some "a@a.com", some "555", none⟩).2
        ⟨some "Acme", some "a@a.com", none, none⟩).2.clients.length =
      (handle_client_processing
        ⟨[⟨"X-id", "Xavier", some "x@x.com", some "555", none⟩], [], [], 0⟩
        ⟨some "Acme", some "a@a.com", some "555", none⟩).2.clients.length
        + 1 := by
  exact ⟨by decide, by decide⟩

/-- C4 (amended): sequential resolutions with the same non-empty candidate
email agree and create no second row, provided the first resolution is not
diverted by the phone fallback (the email is already known, or the first
candidate carries a name and no phone matching an existing client); and for
any email other than the fallback address unknown@gmail.com, resolution
preserves the at-most-one-identity-per-email invariant. -/
theorem c4_email_dedup (db : DB) (c1 c2 : ClientData) (e : String)
    (he1 : c1.email = some e) (he2 : c2.email = some e) (hne : e.isEmpty = false)
    (hdivert : get_client_by_email db e ≠ none ∨
      ((∀ p, c1.phone = some p → p.isEmpty = false →
          get_client_by_phone db p = none) ∧ ∃ nm, c1.name = some nm)) :
    (handle_client_processing (handle_client_processing db c1).2 c2).1 =
      (handle_client_processing db c1).1 ∧
    (handle_client_processing (handle_client_processing db c1).2 c2).2.clients =
      (handle_client_processing db c1).2.clients ∧
    (∀ (db' : DB) (cc : ClientData) (ee : String), ee.isEmpty = false →
      ee ≠ "unknown@gmail.com" →
      (db'.clients.filter (fun cl => cl.email == some ee)).length ≤ 1 →
      ((handle_client_processing db' cc).2.clients.filter
        (fun cl => cl.email == some ee)).length ≤ 1) := by
  have hmain :
      (handle_client_processing (handle_client_processing db c1).2 c2).1 =
        (handle_client_processing db c1).1 ∧
      (handle_client_processing (handle_client_processing db c1).2 c2).2.clients =
        (handle_client_processing db c1).2.clients := by
    cases hlook : get_client_by_email db e with
    | some cl =>
      have h1 := handle_email_hit db c1 e cl he1 hne hlook
      have h2 := handle_email_hit db c2 e cl he2 hne hlook
      rw [h1]
      dsimp only
      rw [h2]
      exact ⟨rfl, rfl⟩
    | none =>
      rcases hdivert with hL | ⟨hph, nm, hname⟩
      · exact absurd hlook hL
      · have h1 := handle_email_miss_create db c1 e nm he1 hne hlook hph hname
        rw [h1]
        dsimp only
        have hlook2 : get_client_by_email
            { db with
              clients := db.clients ++
                [⟨uuidFor db.uuidCounter, nm, c1.email, c1.phone, c1.address⟩],
              uuidCounter := db.uuidCounter + 1 } e =
            some ⟨uuidFor db.uuidCounter, nm, c1.email, c1.phone, c1.address⟩ := by
          unfold get_client_by_email at hlook ⊢
          dsimp only
          rw [List.find?_append, hlook]
          simp [he1]
        have h2 := handle_email_hit _ c2 e _ he2 hne hlook2
        rw [h2]
        exact ⟨rfl, rfl⟩
  refine ⟨hmain.1, hmain.2, ?_⟩
  intro db' cc ee hee hnu hinv
  unfold handle_client_processing
  cases hE : (if pyTruthy cc.email then
      get_client_by_email db' (cc.email.getD "") else none) with
  | some cl => simp only [hE]; exact hinv
  | none =>
    cases hP : (if pyTruthy cc.phone then
        get_client_by_phone db' (cc.phone.getD "") else none) with
    | some cl => simp only [hE, hP]; exact hinv
    | none =>
      simp only [hE, hP]
      unfold create_client
      cases hn : cc.name with
      | some nm =>
        dsimp only
        rw [List.filter_append]
        by_cases hmatch : (cc.email == some ee) = true
        · have hemail : cc.email = some ee := eq_of_beq hmatch
          have htr : pyTruthy cc.email = true := by
            rw [hemail]; simp [pyTruthy, hee]
          have htr2 : pyTruthy (some ee) = true := by simp [pyTruthy, hee]
          simp [hemail, htr2] at hE
          have hfilter :
              db'.clients.filter (fun cl => cl.email == some ee) = [] := by
            rw [List.filter_eq_nil_iff]
            intro a ha
            unfold get_client_by_email at hE
            exact List.find?_eq_none.mp hE a ha
          rw [hfilter]
          simp [hemail]
        · simp only [Bool.not_eq_true] at hmatch
          have : ((⟨uuidFor db'.uuidCounter, nm, cc.email, cc.phone,
              cc.address⟩ : Client).email == some ee) = false := hmatch
          simp only [List.filter_cons, List.filter_nil, this,
            Bool.false_eq_true, if_false, List.append_nil]
          exact hinv
      | none =>
        dsimp only
        rw [List.filter_append]
        have hfb : ((⟨uuidFor db'.uuidCounter, "Unknown Client",
            some "unknown@gmail.com", none, none⟩ : Client).email ==
              some ee) = false := by
          simp only [beq_eq_false_iff_ne, ne_eq, Option.some.injEq]
          exact fun hh => hnu hh.symm
        simp only [List.filter_cons, List.filter_nil, hfb,
          Bool.false_eq_true, if_false, List.append_nil]
        exact hinv

theorem c4_email_dedup_witness :
    (handle_client_processing
        (handle_client_processing emptyDB
          ⟨some "Acme", some "a@a.com", none, none⟩).2
        ⟨some "Acme", some "a@a.com", none, none⟩).1 =
      (handle_client_processing emptyDB
        ⟨some "Acme", some "a@a.com", none, none⟩).1 ∧
    (handle_client_processing
        (handle_client_processing emptyDB
          ⟨some "Acme", some "a@a.com", none, none⟩).2
        ⟨some "Acme", some "a@a.com", none, none⟩).2.clients =
      (handle_client_processing emptyDB
        ⟨some "Acme", some "a@a.com", none, none⟩).2.clients ∧
    ((handle_client_processing emptyDB
        ⟨some "Acme", some "a@a.com", none, none⟩).2.clients.filter
      (fun cl => cl.email == some "a@a.com")).length ≤ 1 := by
  have h := c4_email_dedup emptyDB ⟨some "Acme", some "a@a.com", none, none⟩
    ⟨some "Acme", some "a@a.com", none, none⟩ "a@a.com" rfl rfl (by decide)
    (Or.inr ⟨(fun p hp _ => nomatch hp), ⟨"Acme", rfl⟩⟩)
  exact ⟨h.1, h.2.1,
    h.2.2 emptyDB ⟨some "Acme", some "a@a.com", none, none⟩ "a@a.com"
      (by decide) (by decide) (by decide)⟩

/-! ## Re-processing a numbered invoice (claim C3) -/

theorem insert_ok_nodup (db : DB) (row : InvoiceRow) (db2 : DB)
    (h : insertInvoiceRow db row = .ok db2) :
    db.invoices.any (fun r => r.id == row.id) = false := by
  unfold insertInvoiceRow at h
  by_cases hdup : db.invoices.any (fun r => r.id == row.id) = true
  · rw [if_pos hdup] at h; cases h
  · rw [if_neg hdup] at h
    exact Bool.not_eq_true _ |>.mp hdup

/-- C3 (counterexample): re-processing the same numbered invoice is not an
upsert: the second run recomputes the same id, the plain INSERT hits the
primary-key constraint, and the document is re-routed to the invalid store
with status "error" instead of succeeding — the valid store still holds
exactly the one record under md5 of the number, and the invalid store holds
exactly the re-routed row carrying the unique-constraint message. -/
theorem c3_counterexample :
    (process_invoice "2024-01-01 00:00:00.000001" "2024-01-01" emptyDB
      "PO Number:7").1.status = "success" ∧
    (process_invoice "2024-01-02 00:00:00.000002" "2024-01-02"
      (process_invoice "2024-01-01 00:00:00.000001" "2024-01-01" emptyDB
        "PO Number:7").2 "PO Number:7").1.status = "error" ∧
    ((process_invoice "2024-01-02 00:00:00.000002" "2024-01-02"
      (process_invoice "2024-01-01 00:00:00.000001" "2024-01-01" emptyDB
        "PO Number:7").2 "PO Number:7").2.invoices.filter
      (fun r => r.id == md5Hex "7")).length = 1 ∧
    (process_invoice "2024-01-02 00:00:00.000002" "2024-01-02"
      (process_invoice "2024-01-01 00:00:00.000001" "2024-01-01" emptyDB
        "PO Number:7").2 "PO Number:7").2.invalid_invoices.map
      InvalidRow.error_message =
      ["Failed to save invoice: UNIQUE constraint failed: invoices.id"] := by
  exact ⟨by decide, by decide, by decide, by decide⟩

/-- C3 (amended): re-processing a document with the same non-empty
invoice_number recomputes the same id and the valid store still holds
exactly one record under that id — but the second processing does not
succeed: its INSERT violates the unique primary key and the document is
re-routed to the invalid store. -/
theorem c3_rerun_same_number (now1 today1 now2 today2 : String) (db : DB)
    (text : String) (n : String)
    (hnum : (extract_invoice_details text).toOption.map
      InvoiceData.invoice_number = some (some n))
    (hne : n.isEmpty = false)
    (hs : (process_invoice now1 today1 db text).1.status = "success") :
    invoiceIdFor now1 (some n) = invoiceIdFor now2 (some n) ∧
    ((process_invoice now1 today1 db text).2.invoices.filter
      (fun r => r.id == md5Hex n)).length = 1 ∧
    (process_invoice now2 today2
      (process_invoice now1 today1 db text).2 text).1.status = "error" ∧
    (process_invoice now2 today2
      (process_invoice now1 today1 db text).2 text).2.invoices =
      (process_invoice now1 today1 db text).2.invoices ∧
    (process_invoice now2 today2
      (process_invoice now1 today1 db text).2 text).2.invalid_invoices.length =
      (process_invoice now1 today1 db text).2.invalid_invoices.length + 1 := by
  have hidgen : ∀ nw : String, invoiceIdFor nw (some n) = md5Hex n := by
    intro nw; simp [invoiceIdFor, pyTruthy, hne]
  obtain ⟨d, hx⟩ : ∃ d, extract_invoice_details text = .ok d := by
    cases hq : extract_invoice_details text with
    | error e => rw [hq] at hnum; cases hnum
    | ok d => exact ⟨d, rfl⟩
  have hn : d.invoice_number = some n := by
    rw [hx] at hnum
    simpa [Except.toOption] using hnum
  have hcur : ¬(d.currency = none) := by
    rcases extract_details_currency text d hx with h | h <;> rw [h] <;>
      exact fun hh => by cases hh
  simp only [process_invoice, hx] at hs
  rw [if_neg hcur] at hs
  revert hs
  split
  · next db2 hins =>
    intro _
    have hout1 : (process_invoice now1 today1 db text).2 = db2 := by
      simp only [process_invoice, hx]
      rw [if_neg hcur, hins]
    obtain ⟨hrows, hpres⟩ :=
      insert_ok_stores (handle_client_processing db d.client).2 _ db2 hins
    have hnodup := insert_ok_nodup (handle_client_processing db d.client).2
      _ db2 hins
    dsimp only at hnodup
    rw [hn, hidgen now1] at hnodup hrows
    have hfilter1 :
        (handle_client_processing db d.client).2.invoices.filter
          (fun r => r.id == md5Hex n) = [] := by
      rw [List.filter_eq_nil_iff]
      intro a ha
      have hall := List.any_eq_true.not.mp (by rw [hnodup]; exact
        Bool.false_ne_true)
      push_neg at hall
      exact fun hc => hall a ha hc
    have hcount1 :
        (db2.invoices.filter (fun r => r.id == md5Hex n)).length = 1 := by
      rw [hrows, List.filter_append, hfilter1]
      simp
    obtain ⟨hci2, hcv2⟩ := handle_client_stores db2 d.client
    have hdupfact :
        (handle_client_processing db2 d.client).2.invoices.any
          (fun r => r.id == md5Hex n) = true := by
      rw [hci2, hrows, List.any_append]
      simp
    rw [hout1]
    refine ⟨by rw [hidgen now1, hidgen now2], hcount1, ?_⟩
    simp only [process_invoice, hx]
    rw [if_neg hcur]
    split
    · next db3 hins2 =>
      exfalso
      have hnd := insert_ok_nodup (handle_client_processing db2 d.client).2
        _ db3 hins2
      dsimp only at hnd
      rw [hn, hidgen now2] at hnd
      rw [hdupfact] at hnd
      exact absurd hnd (by decide)
    · next err2 hins2 =>
      dsimp only
      refine ⟨rfl, ?_, ?_⟩
      · rw [(save_invalid_stores _ _ _).1, hci2]
      · obtain ⟨-, srow, hsrow, -⟩ := save_invalid_stores
          (handle_client_processing db2 d.client).2
          (some { d with
            date := some (pyOr d.date today2),
            due_date := some (pyOr d.due_date (pyOr d.date today2)),
            bill_to := some (pyOr d.bill_to "Not found"),
            invoice_number := some (pyOr d.invoice_number
              ("INV-" ++ strTake (invoiceIdFor now2 d.invoice_number) 8)) })
          ("Failed to save invoice: " ++ err2)
        rw [hsrow, hcv2]
        simp
  · next err hins =>
    intro hs
    exact absurd (show ("error" : String) = "success" from hs) (by decide)

theorem c3_rerun_same_number_witness :
    (extract_invoice_details "PO Number:7").toOption.map
      InvoiceData.invoice_number = some (some "7") ∧
    ("7" : String).isEmpty = false ∧
    (process_invoice "2024-01-01 00:00:00.000001" "2024-01-01" emptyDB
      "PO Number:7").1.status = "success" ∧
    (process_invoice "2024-01-02 00:00:00.000002" "2024-01-02"
      (process_invoice "2024-01-01 00:00:00.000001" "2024-01-01" emptyDB
        "PO Number:7").2 "PO Number:7").1.status = "error" :=
  ⟨by decide, by decide, by decide,
   (c3_rerun_same_number "2024-01-01 00:00:00.000001" "2024-01-01"
     "2024-01-02 00:00:00.000002" "2024-01-02" emptyDB "PO Number:7" "7"
     (by decide) (by decide) (by decide)).2.2.1⟩

/-- C8: on a recognized text containing the fragments "PO Number:12345",
"TOTAL: 1234.56 EUR" and "Bill to: Acme Corp 12345 Email: a@a.com", field
extraction yields invoice_number "12345", total 1234.56, currency "EUR",
bill_to "Acme Corp" (which contains "Acme Corp"), a candidate client block
with email "a@a.com", and resolving that block against an empty store
creates exactly one ClientIdentity carrying that email, whose id is the one
resolution returns. -/
theorem c8_end_to_end :
    (extract_invoice_details
      "PO Number:12345 TOTAL: 1234.56 EUR Bill to: Acme Corp 12345 Email: a@a.com").toOption.map
      InvoiceData.invoice_number = some (some "12345") ∧
    (extract_invoice_details
      "PO Number:12345 TOTAL: 1234.56 EUR Bill to: Acme Corp 12345 Email: a@a.com").toOption.map
      InvoiceData.total = some (some (1234.56 : Rat)) ∧
    (extract_invoice_details
      "PO Number:12345 TOTAL: 1234.56 EUR Bill to: Acme Corp 12345 Email: a@a.com").toOption.map
      InvoiceData.currency = some (some "EUR") ∧
    (extract_invoice_details
      "PO Number:12345 TOTAL: 1234.56 EUR Bill to: Acme Corp 12345 Email: a@a.com").toOption.map
      InvoiceData.bill_to = some (some "Acme Corp") ∧
    (extract_invoice_details
      "PO Number:12345 TOTAL: 1234.56 EUR Bill to: Acme Corp 12345 Email: a@a.com").toOption.map
      (fun d => d.client.email) = some (some "a@a.com") ∧
    (extract_invoice_details
      "PO Number:12345 TOTAL: 1234.56 EUR Bill to: Acme Corp 12345 Email: a@a.com").toOption.map
      (fun d =>
        ((handle_client_processing emptyDB d.client).2.clients.filter
          (fun cl => cl.id == (handle_client_processing emptyDB d.client).1 &&
            cl.email == some "a@a.com")).length) = some 1 := by
  have hlit : (1234.56 : Rat) = mkRat 123456 100 := by norm_num
  exact ⟨by decide, by rw [hlit]; decide, by decide, by decide, by decide,
    by decide⟩
